import Mathlib

/-
Verification development for the ITIS Cannizzaro student-survey schema
validator (src/day_4/day_4_helpers.py).

The validator is a pydantic BaseModel hierarchy: five nested group models
(Demographics, Academics, Behavioral, Activities, DigitalMetrics) composed
into CannizzaroStudent.  Pydantic's model validation is modelled as a total
Lean function from an untyped Value (the raw mapping) to
Except (List FieldError) CannizzaroStudent: pydantic's ValidationError,
which carries the aggregated list of all field errors, is the Except.error
result; the constructed model is the Except.ok result.  Strings are lists
of characters; Python str.lower / str.strip are pyLower / pyStrip.
-/

namespace Day4

/-- Python strings, as character lists (len, lower, strip act on characters). -/
abbrev Str := List Char

/-- Python str.lower (character-wise, ASCII range as in Char.toLower). -/
def pyLower (s : Str) : Str := s.map Char.toLower

/-- Drop leading whitespace characters. -/
def stripLeft (s : Str) : Str := s.dropWhile Char.isWhitespace

/-- Drop trailing whitespace characters. -/
def stripRight (s : Str) : Str := (s.reverse.dropWhile Char.isWhitespace).reverse

/-- Python str.strip with no arguments: drop leading and trailing whitespace. -/
def pyStrip (s : Str) : Str := stripRight (stripLeft s)

/-- The normalization the source applies before vocabulary membership checks:
`v.lower().strip()`. -/
def pyNorm (s : Str) : Str := pyStrip (pyLower s)

/-- Untyped raw input values (decoded JSON-like data fed to the validator). -/
inductive Value where
  | int (n : Int)
  | str (s : Str)
  | list (xs : List Value)
  | map (entries : List (Str × Value))

/-- Mapping lookup: first entry with the given key wins (Python dict keys are
unique, so first-wins agrees with dict semantics on real inputs). -/
def lookupKey (m : List (Str × Value)) (k : Str) : Option Value :=
  match m with
  | [] => none
  | (k1, v) :: rest => if k1 = k then some v else lookupKey rest k

/-- Machine-readable error kinds of the spec's taxonomy, as produced by
pydantic for the declarations in the source (missing, wrong type, numeric
bound violation, string/list length violation, Literal mismatch, and the
ValueError raised by the vocabulary field validators). -/
inductive ErrKind where
  | missingField
  | typeMismatch
  | outOfRange
  | tooShort
  | tooLong
  | invalidEnum
  | invalidVocabularyMember
deriving DecidableEq, Repr

/-- One field-scoped validation error: the field path, the kind, and the
list of offending tokens named in the human-readable message (the source's
vocabulary validators name exactly one offending element in the message;
the enum-style messages name none). -/
structure FieldError where
  path : List Str
  kind : ErrKind
  offenders : List Str
deriving DecidableEq, Repr

/-- Errors contributed by one field or group result. -/
def errsL {α : Type} (r : Except (List FieldError) α) : List FieldError :=
  match r with
  | .error l => l
  | .ok _ => []

/-- Lift a single-error field result into the list-of-errors form. -/
def liftE {α : Type} (r : Except FieldError α) : Except (List FieldError) α :=
  match r with
  | .error e => .error [e]
  | .ok a => .ok a

/-- An integer field with inclusive bounds (pydantic ge/le; gt=0 over the
integers is ge=1, which is how commute_time_min is encoded below). -/
def checkInt (m : List (Str × Value)) (key : Str) (lo hi : Int) :
    Except FieldError Int :=
  match lookupKey m key with
  | none => .error ⟨[key], .missingField, []⟩
  | some (.int n) =>
      if lo ≤ n ∧ n ≤ hi then .ok n else .error ⟨[key], .outOfRange, []⟩
  | some _ => .error ⟨[key], .typeMismatch, []⟩

/-- A string field with inclusive length bounds (pydantic min_length /
max_length on str), measured on the raw string, stored unmodified. -/
def checkStrLen (m : List (Str × Value)) (key : Str) (lo hi : Nat) :
    Except FieldError Str :=
  match lookupKey m key with
  | none => .error ⟨[key], .missingField, []⟩
  | some (.str s) =>
      if s.length < lo then .error ⟨[key], .tooShort, []⟩
      else if hi < s.length then .error ⟨[key], .tooLong, []⟩
      else .ok s
  | some _ => .error ⟨[key], .typeMismatch, []⟩

/-- A string-literal enumeration field (pydantic Literal over strings):
exact match, no normalization anywhere in the source for these fields. -/
def checkEnumStr (m : List (Str × Value)) (key : Str) (lits : List Str) :
    Except FieldError Str :=
  match lookupKey m key with
  | none => .error ⟨[key], .missingField, []⟩
  | some (.str s) =>
      if s ∈ lits then .ok s else .error ⟨[key], .invalidEnum, []⟩
  | some _ => .error ⟨[key], .typeMismatch, []⟩

/-- An integer-literal enumeration field (pydantic Literal over ints):
exact match. -/
def checkEnumInt (m : List (Str × Value)) (key : Str) (lits : List Int) :
    Except FieldError Int :=
  match lookupKey m key with
  | none => .error ⟨[key], .missingField, []⟩
  | some (.int n) =>
      if n ∈ lits then .ok n else .error ⟨[key], .invalidEnum, []⟩
  | some _ => .error ⟨[key], .typeMismatch, []⟩

/-- VALID_SPORTS from the source (multi-select vocabulary for sports). -/
def VALID_SPORTS : List Str :=
  ["soccer".toList, "basketball".toList, "volleyball".toList, "tennis".toList,
   "swimming".toList, "rowing".toList, "running".toList, "cycling".toList,
   "skiing".toList, "martial_arts".toList, "none".toList]

/-- VALID_MUSIC_GENRES from the source. -/
def VALID_MUSIC_GENRES : List Str :=
  ["pop".toList, "rock".toList, "hip_hop".toList, "rap".toList, "edm".toList,
   "classical".toList, "jazz".toList, "r_and_b".toList, "country".toList,
   "metal".toList, "indie".toList, "latin".toList, "kpop".toList,
   "other".toList]

/-- VALID_HOBBIES from the source. -/
def VALID_HOBBIES : List Str :=
  ["gaming".toList, "reading".toList, "cooking".toList, "photography".toList,
   "art".toList, "music".toList, "travel".toList, "hiking".toList,
   "movies".toList, "anime".toList, "programming".toList, "hackathons".toList,
   "fashion".toList, "fitness".toList, "social_media".toList,
   "podcasts".toList, "crafts".toList, "volunteering".toList,
   "languages".toList, "writing".toList, "none".toList]

/-- VALID_SUBJECTS from the source. -/
def VALID_SUBJECTS : List Str :=
  ["math".toList, "physics".toList, "chemistry".toList, "biology".toList,
   "computer_science".toList, "literature".toList, "history".toList,
   "art".toList, "music".toList, "economics".toList, "philosophy".toList,
   "physical_education".toList, "foreign_languages".toList,
   "engineering".toList, "other".toList]

/-- ClassSectionType literals. -/
def CLASS_SECTIONS : List Str :=
  ["a".toList, "b".toList, "c".toList, "d".toList, "e".toList]

/-- WeekendStyleType literals. -/
def WEEKEND_STYLES : List Str :=
  ["chill".toList, "party".toList, "explore".toList, "study".toList]

/-- BestWorkTimeType literals (1=morning, 2=midday, 3=evening, 4=night). -/
def BEST_WORK_TIMES : List Int := [1, 2, 3, 4]

/-- HumorStyleType literals. -/
def HUMOR_STYLES : List Str :=
  ["dry".toList, "quirky".toList, "dark".toList, "basic".toList]

/-- The favorite_subject field: declared str, then the validate_subject
field validator normalizes (`v.lower().strip()`) and requires membership in
VALID_SUBJECTS; the normalized value is stored.  The source's error message
names no individual offending token (it only enumerates the allowed set). -/
def checkSubject (m : List (Str × Value)) (key : Str) :
    Except FieldError Str :=
  match lookupKey m key with
  | none => .error ⟨[key], .missingField, []⟩
  | some (.str s) =>
      if pyNorm s ∈ VALID_SUBJECTS then .ok (pyNorm s)
      else .error ⟨[key], .invalidEnum, []⟩
  | some _ => .error ⟨[key], .typeMismatch, []⟩

/-- Interpret a raw list as a list of strings (pydantic List[str] element
typing); any non-string element is a type mismatch for the field. -/
def asStrList (xs : List Value) : Option (List Str) :=
  match xs with
  | [] => some []
  | .str s :: rest => (asStrList rest).map (fun t => s :: t)
  | _ :: _ => none

/-- A List[str] field with Field(min_length=1) and an after-mode field
validator that normalizes every element and then iterates in order, raising
on the FIRST element absent from the vocabulary (the raised message names
exactly that one element); on success the normalized list is stored. -/
def checkVocabList (m : List (Str × Value)) (key : Str) (vocab : List Str) :
    Except FieldError (List Str) :=
  match lookupKey m key with
  | none => .error ⟨[key], .missingField, []⟩
  | some (.list xs) =>
      if xs.length < 1 then .error ⟨[key], .tooShort, []⟩
      else
        match asStrList xs with
        | none => .error ⟨[key], .typeMismatch, []⟩
        | some ss =>
            match (ss.map pyNorm).find? (fun x => decide (x ∉ vocab)) with
            | some bad => .error ⟨[key], .invalidVocabularyMember, [bad]⟩
            | none => .ok (ss.map pyNorm)
  | some _ => .error ⟨[key], .typeMismatch, []⟩

/-- Combine two field results: construct on all-ok, otherwise concatenate
every slot's errors (no slot is skipped, mirroring pydantic's aggregation
of all field errors of a model). -/
def comb2 {α β G : Type} (mk : α → β → G)
    (r1 : Except (List FieldError) α) (r2 : Except (List FieldError) β) :
    Except (List FieldError) G :=
  match r1, r2 with
  | .ok a, .ok b => .ok (mk a b)
  | _, _ => .error (errsL r1 ++ errsL r2)

/-- Combine three results, aggregating all errors. -/
def comb3 {α β γ G : Type} (mk : α → β → γ → G)
    (r1 : Except (List FieldError) α) (r2 : Except (List FieldError) β)
    (r3 : Except (List FieldError) γ) : Except (List FieldError) G :=
  match r1, r2, r3 with
  | .ok a, .ok b, .ok c => .ok (mk a b c)
  | _, _, _ => .error (errsL r1 ++ errsL r2 ++ errsL r3)

/-- Combine four results, aggregating all errors. -/
def comb4 {α β γ δ G : Type} (mk : α → β → γ → δ → G)
    (r1 : Except (List FieldError) α) (r2 : Except (List FieldError) β)
    (r3 : Except (List FieldError) γ) (r4 : Except (List FieldError) δ) :
    Except (List FieldError) G :=
  match r1, r2, r3, r4 with
  | .ok a, .ok b, .ok c, .ok d => .ok (mk a b c d)
  | _, _, _, _ => .error (errsL r1 ++ errsL r2 ++ errsL r3 ++ errsL r4)

/-- Combine five results, aggregating all errors. -/
def comb5 {α β γ δ ε G : Type} (mk : α → β → γ → δ → ε → G)
    (r1 : Except (List FieldError) α) (r2 : Except (List FieldError) β)
    (r3 : Except (List FieldError) γ) (r4 : Except (List FieldError) δ)
    (r5 : Except (List FieldError) ε) : Except (List FieldError) G :=
  match r1, r2, r3, r4, r5 with
  | .ok a, .ok b, .ok c, .ok d, .ok e => .ok (mk a b c d e)
  | _, _, _, _, _ =>
      .error (errsL r1 ++ errsL r2 ++ errsL r3 ++ errsL r4 ++ errsL r5)

def kDemographics : Str := "demographics".toList
def kAcademics : Str := "academics".toList
def kBehavioral : Str := "behavioral".toList
def kActivities : Str := "activities".toList
def kDigitalMetrics : Str := "digital_metrics".toList
def kAlias : Str := "alias".toList
def kSiblings : Str := "siblings".toList
def kCommuteTimeMin : Str := "commute_time_min".toList
def kClassSection : Str := "class_section".toList
def kHometown : Str := "hometown".toList
def kAcademicInterest : Str := "academic_interest".toList
def kFavoriteSubject : Str := "favorite_subject".toList
def kSocialStyle : Str := "social_style".toList
def kWeekendStyle : Str := "weekend_style".toList
def kBestWorkTime : Str := "best_work_time".toList
def kHumorStyle : Str := "humor_style".toList
def kSports : Str := "sports".toList
def kMusicGenres : Str := "music_genres".toList
def kHobbies : Str := "hobbies".toList
def kAvgScreenTimeMin : Str := "avg_screen_time_min".toList
def kPhonePickupsDaily : Str := "phone_pickups_daily".toList

/-- The five known top-level keys of CannizzaroStudent. -/
def KNOWN_KEYS : List Str :=
  [kDemographics, kAcademics, kBehavioral, kActivities, kDigitalMetrics]

/-- Demographic information about the student (field names as in the
source; `alias` is spelled alias1 because `alias` is a Lean command). -/
structure Demographics where
  alias1 : Str
  siblings : Int
  commute_time_min : Int
  class_section : Str
  hometown : Str
deriving DecidableEq, Repr

/-- Academic interests and preferences. -/
structure Academics where
  academic_interest : Int
  favorite_subject : Str
deriving DecidableEq, Repr

/-- Behavioral and personality traits. -/
structure Behavioral where
  social_style : Int
  weekend_style : Str
  best_work_time : Int
  humor_style : Str
deriving DecidableEq, Repr

/-- Hobbies and activities. -/
structure Activities where
  sports : List Str
  music_genres : List Str
  hobbies : List Str
deriving DecidableEq, Repr

/-- Digital usage metrics. -/
structure DigitalMetrics where
  avg_screen_time_min : Int
  phone_pickups_daily : Int
deriving DecidableEq, Repr

/-- Complete schema for a student (composition of the five groups). -/
structure CannizzaroStudent where
  demographics : Demographics
  academics : Academics
  behavioral : Behavioral
  activities : Activities
  digital_metrics : DigitalMetrics
deriving DecidableEq, Repr

/-- Validate the demographics group mapping (field order as declared). -/
def validateDemographics (m : List (Str × Value)) :
    Except (List FieldError) Demographics :=
  comb5 Demographics.mk
    (liftE (checkStrLen m kAlias 3 30))
    (liftE (checkInt m kSiblings 0 20))
    (liftE (checkInt m kCommuteTimeMin 1 180))
    (liftE (checkEnumStr m kClassSection CLASS_SECTIONS))
    (liftE (checkStrLen m kHometown 2 50))

/-- Validate the academics group mapping. -/
def validateAcademics (m : List (Str × Value)) :
    Except (List FieldError) Academics :=
  comb2 Academics.mk
    (liftE (checkInt m kAcademicInterest 1 5))
    (liftE (checkSubject m kFavoriteSubject))

/-- Validate the behavioral group mapping. -/
def validateBehavioral (m : List (Str × Value)) :
    Except (List FieldError) Behavioral :=
  comb4 Behavioral.mk
    (liftE (checkInt m kSocialStyle 1 5))
    (liftE (checkEnumStr m kWeekendStyle WEEKEND_STYLES))
    (liftE (checkEnumInt m kBestWorkTime BEST_WORK_TIMES))
    (liftE (checkEnumStr m kHumorStyle HUMOR_STYLES))

/-- Validate the activities group mapping. -/
def validateActivities (m : List (Str × Value)) :
    Except (List FieldError) Activities :=
  comb3 Activities.mk
    (liftE (checkVocabList m kSports VALID_SPORTS))
    (liftE (checkVocabList m kMusicGenres VALID_MUSIC_GENRES))
    (liftE (checkVocabList m kHobbies VALID_HOBBIES))

/-- Validate the digital_metrics group mapping. -/
def validateDigitalMetrics (m : List (Str × Value)) :
    Except (List FieldError) DigitalMetrics :=
  comb2 DigitalMetrics.mk
    (liftE (checkInt m kAvgScreenTimeMin 0 1440))
    (liftE (checkInt m kPhonePickupsDaily 0 500))

/-- Prefix a group key onto an error's path (pydantic's nested-model error
locations). -/
def prefixPath (k : Str) (e : FieldError) : FieldError :=
  ⟨k :: e.path, e.kind, e.offenders⟩

/-- Validate one top-level group: a missing group key is a single missing
error at the group's path; a non-mapping value is a type mismatch; a present
mapping is delegated to the group validator with error paths prefixed. -/
def validateGroup {α : Type} (m : List (Str × Value)) (key : Str)
    (f : List (Str × Value) → Except (List FieldError) α) :
    Except (List FieldError) α :=
  match lookupKey m key with
  | none => .error [⟨[key], .missingField, []⟩]
  | some (.map g) =>
      match f g with
      | .ok v => .ok v
      | .error es => .error (es.map (prefixPath key))
  | some _ => .error [⟨[key], .typeMismatch, []⟩]

/-- The validator entry point: CannizzaroStudent model validation of one raw
value.  Extra top-level keys are never consulted (Config.extra = "ignore").
All five groups are evaluated unconditionally and their errors concatenated
in declaration order. -/
def validateStudent (v : Value) : Except (List FieldError) CannizzaroStudent :=
  match v with
  | .map m =>
      comb5 CannizzaroStudent.mk
        (validateGroup m kDemographics validateDemographics)
        (validateGroup m kAcademics validateAcademics)
        (validateGroup m kBehavioral validateBehavioral)
        (validateGroup m kActivities validateActivities)
        (validateGroup m kDigitalMetrics validateDigitalMetrics)
  | _ => .error [⟨[], .typeMismatch, []⟩]

/-- A fully valid demographics sub-mapping, used as a concrete test base. -/
def baseDemo : List (Str × Value) :=
  [(kAlias, .str ("hector_a".toList)), (kSiblings, .int 1),
   (kCommuteTimeMin, .int 30), (kClassSection, .str ("a".toList)),
   (kHometown, .str ("rome".toList))]

/-- A fully valid academics sub-mapping. -/
def baseAcad : List (Str × Value) :=
  [(kAcademicInterest, .int 4), (kFavoriteSubject, .str ("math".toList))]

/-- A fully valid behavioral sub-mapping. -/
def baseBehav : List (Str × Value) :=
  [(kSocialStyle, .int 3), (kWeekendStyle, .str ("chill".toList)),
   (kBestWorkTime, .int 2), (kHumorStyle, .str ("dry".toList))]

/-- A fully valid activities sub-mapping. -/
def baseAct : List (Str × Value) :=
  [(kSports, .list [.str ("soccer".toList)]),
   (kMusicGenres, .list [.str ("pop".toList)]),
   (kHobbies, .list [.str ("reading".toList)])]

/-- A fully valid digital_metrics sub-mapping. -/
def baseDigital : List (Str × Value) :=
  [(kAvgScreenTimeMin, .int 300), (kPhonePickupsDaily, .int 50)]

/-- Assemble a raw student mapping from five group sub-mappings. -/
def mkRaw (d a b act dm : List (Str × Value)) : Value :=
  .map [(kDemographics, .map d), (kAcademics, .map a), (kBehavioral, .map b),
        (kActivities, .map act), (kDigitalMetrics, .map dm)]

/-- The fully valid concrete raw student mapping. -/
def validRaw : Value := mkRaw baseDemo baseAcad baseBehav baseAct baseDigital

/-- The record that validating validRaw constructs. -/
def recValid : CannizzaroStudent :=
  ⟨⟨"hector_a".toList, 1, 30, "a".toList, "rome".toList⟩,
   ⟨4, "math".toList⟩,
   ⟨3, "chill".toList, 2, "dry".toList⟩,
   ⟨["soccer".toList], ["pop".toList], ["reading".toList]⟩,
   ⟨300, 50⟩⟩

/-- Boolean success test for a validation result. -/
def isOkE {α : Type} (r : Except (List FieldError) α) : Bool :=
  match r with
  | .ok _ => true
  | .error _ => false

/-- The record-level error list: the five groups' error lists computed
independently of one another and concatenated in declaration order. -/
def studentErrs (m : List (Str × Value)) : List FieldError :=
  errsL (validateGroup m kDemographics validateDemographics) ++
  errsL (validateGroup m kAcademics validateAcademics) ++
  errsL (validateGroup m kBehavioral validateBehavioral) ++
  errsL (validateGroup m kActivities validateActivities) ++
  errsL (validateGroup m kDigitalMetrics validateDigitalMetrics)

/-- Normalize a raw value if it is a string, leave it alone otherwise. -/
def normStrOnly (v : Value) : Value :=
  match v with
  | .str s => .str (pyNorm s)
  | w => w

/-- Normalize the string elements of a raw list value. -/
def normListElems (v : Value) : Value :=
  match v with
  | .list xs => .list (xs.map normStrOnly)
  | w => w

/-- Rewrite the value stored at one key of a mapping. -/
def mapValueAt (g : List (Str × Value)) (k : Str) (f : Value → Value) :
    List (Str × Value) :=
  g.map (fun e => (e.1, if e.1 = k then f e.2 else e.2))

/-- Normalize, inside one top-level group value, exactly the fields the
source normalizes before a vocabulary membership check: academics.
favorite_subject and the three activities lists.  All other groups and
fields are left untouched. -/
def normVocabGroup (key : Str) (v : Value) : Value :=
  if key = kAcademics then
    match v with
    | .map g => .map (mapValueAt g kFavoriteSubject normStrOnly)
    | w => w
  else if key = kActivities then
    match v with
    | .map g =>
        .map (mapValueAt (mapValueAt (mapValueAt g kSports normListElems)
          kMusicGenres normListElems) kHobbies normListElems)
    | w => w
  else v

/-- Normalize the vocabulary-checked fields of a raw student mapping. -/
def normVocab (v : Value) : Value :=
  match v with
  | .map m => .map (m.map (fun e => (e.1, normVocabGroup e.1 e.2)))
  | w => w

/-- Modelled from the spec's words (C7's `normalize`): trim and lowercase
every string-typed field and every element of every list-of-string field of
a raw student mapping — including alias and hometown, which the source
never normalizes.  This definition follows the claim's wording and exists
to be compared with the validator's actual behavior. -/
def specNormalize (v : Value) : Value :=
  match v with
  | .map m =>
      .map (m.map (fun e =>
        (e.1,
         match e.2 with
         | .map g => .map (g.map (fun e2 => (e2.1, normListElems (normStrOnly e2.2))))
         | w => w)))
  | w => w

/-- Raw student mapping with one demographics field overridden (lookup is
first-match, so consing shadows the base entry). -/
def withDemo (e : Str × Value) : Value :=
  mkRaw (e :: baseDemo) baseAcad baseBehav baseAct baseDigital

/-- Raw student mapping with one academics field overridden. -/
def withAcad (e : Str × Value) : Value :=
  mkRaw baseDemo (e :: baseAcad) baseBehav baseAct baseDigital

/-- Raw student mapping with one behavioral field overridden. -/
def withBehav (e : Str × Value) : Value :=
  mkRaw baseDemo baseAcad (e :: baseBehav) baseAct baseDigital

/-- Raw student mapping with one digital_metrics field overridden. -/
def withDigital (e : Str × Value) : Value :=
  mkRaw baseDemo baseAcad baseBehav baseAct (e :: baseDigital)

/-- Activities sub-mapping whose sports list holds two elements absent from
the sports vocabulary (genres and hobbies valid). -/
def cexActMap : List (Str × Value) :=
  [(kSports, .list [.str ("football".toList), .str ("quidditch".toList)]),
   (kMusicGenres, .list [.str ("pop".toList)]),
   (kHobbies, .list [.str ("reading".toList)])]

/-- Raw student mapping with the whole activities group absent and the
other four groups fully valid. -/
def noActRaw : Value :=
  .map [(kDemographics, .map baseDemo), (kAcademics, .map baseAcad),
        (kBehavioral, .map baseBehav), (kDigitalMetrics, .map baseDigital)]

/-- Fully valid raw student mapping with a mixed-case alias. -/
def c7raw : Value :=
  mkRaw ((kAlias, .str ("Hector_A".toList)) :: baseDemo) baseAcad baseBehav
    baseAct baseDigital

/-- The record c7raw validates to (alias kept exactly as submitted). -/
def c7rec : CannizzaroStudent :=
  ⟨⟨"Hector_A".toList, 1, 30, "a".toList, "rome".toList⟩,
   ⟨4, "math".toList⟩,
   ⟨3, "chill".toList, 2, "dry".toList⟩,
   ⟨["soccer".toList], ["pop".toList], ["reading".toList]⟩,
   ⟨300, 50⟩⟩

/-- The record specNormalize c7raw validates to (alias lowercased). -/
def c7recNormed : CannizzaroStudent :=
  ⟨⟨"hector_a".toList, 1, 30, "a".toList, "rome".toList⟩,
   ⟨4, "math".toList⟩,
   ⟨3, "chill".toList, 2, "dry".toList⟩,
   ⟨["soccer".toList], ["pop".toList], ["reading".toList]⟩,
   ⟨300, 50⟩⟩

/-! Basic equations and inversion lemmas for the combinators. -/

@[simp] theorem errsL_ok {α : Type} (a : α) :
    errsL (.ok a : Except (List FieldError) α) = [] := rfl

@[simp] theorem errsL_error {α : Type} (l : List FieldError) :
    errsL (.error l : Except (List FieldError) α) = l := rfl

@[simp] theorem liftE_ok {α : Type} (a : α) :
    liftE (.ok a : Except FieldError α) = .ok a := rfl

@[simp] theorem liftE_error {α : Type} (e : FieldError) :
    liftE (.error e : Except FieldError α) = .error [e] := rfl

theorem liftE_eq_ok {α : Type} {r : Except FieldError α} {a : α}
    (h : liftE r = .ok a) : r = .ok a := by
  cases r <;> simp_all [liftE]

theorem comb2_eq_ok {α β G : Type} {mk : α → β → G}
    {r1 : Except (List FieldError) α} {r2 : Except (List FieldError) β}
    {g : G} (h : comb2 mk r1 r2 = .ok g) :
    ∃ a b, r1 = .ok a ∧ r2 = .ok b ∧ g = mk a b := by
  cases r1 <;> cases r2 <;> simp_all [comb2]

theorem comb3_eq_ok {α β γ G : Type} {mk : α → β → γ → G}
    {r1 : Except (List FieldError) α} {r2 : Except (List FieldError) β}
    {r3 : Except (List FieldError) γ} {g : G}
    (h : comb3 mk r1 r2 r3 = .ok g) :
    ∃ a b c, r1 = .ok a ∧ r2 = .ok b ∧ r3 = .ok c ∧ g = mk a b c := by
  cases r1 <;> cases r2 <;> cases r3 <;> simp_all [comb3]

theorem comb4_eq_ok {α β γ δ G : Type} {mk : α → β → γ → δ → G}
    {r1 : Except (List FieldError) α} {r2 : Except (List FieldError) β}
    {r3 : Except (List FieldError) γ} {r4 : Except (List FieldError) δ}
    {g : G} (h : comb4 mk r1 r2 r3 r4 = .ok g) :
    ∃ a b c d, r1 = .ok a ∧ r2 = .ok b ∧ r3 = .ok c ∧ r4 = .ok d ∧
      g = mk a b c d := by
  cases r1 <;> cases r2 <;> cases r3 <;> cases r4 <;> simp_all [comb4]

theorem comb5_eq_ok {α β γ δ ε G : Type} {mk : α → β → γ → δ → ε → G}
    {r1 : Except (List FieldError) α} {r2 : Except (List FieldError) β}
    {r3 : Except (List FieldError) γ} {r4 : Except (List FieldError) δ}
    {r5 : Except (List FieldError) ε} {g : G}
    (h : comb5 mk r1 r2 r3 r4 r5 = .ok g) :
    ∃ a b c d e, r1 = .ok a ∧ r2 = .ok b ∧ r3 = .ok c ∧ r4 = .ok d ∧
      r5 = .ok e ∧ g = mk a b c d e := by
  cases r1 <;> cases r2 <;> cases r3 <;> cases r4 <;> cases r5 <;>
    simp_all [comb5]

theorem comb5_eq_error {α β γ δ ε G : Type} {mk : α → β → γ → δ → ε → G}
    {r1 : Except (List FieldError) α} {r2 : Except (List FieldError) β}
    {r3 : Except (List FieldError) γ} {r4 : Except (List FieldError) δ}
    {r5 : Except (List FieldError) ε} {l : List FieldError}
    (h : comb5 mk r1 r2 r3 r4 r5 = .error l) :
    l = errsL r1 ++ errsL r2 ++ errsL r3 ++ errsL r4 ++ errsL r5 ∧
      ((∃ e, r1 = .error e) ∨ (∃ e, r2 = .error e) ∨ (∃ e, r3 = .error e) ∨
       (∃ e, r4 = .error e) ∨ (∃ e, r5 = .error e)) := by
  cases r1 <;> cases r2 <;> cases r3 <;> cases r4 <;> cases r5 <;>
    simp_all [comb5]

/-! Inversion lemmas for the per-field checks. -/

theorem checkInt_eq_ok {m : List (Str × Value)} {key : Str} {lo hi n : Int}
    (h : checkInt m key lo hi = .ok n) :
    lookupKey m key = some (.int n) ∧ lo ≤ n ∧ n ≤ hi := by
  unfold checkInt at h
  cases hl : lookupKey m key with
  | none => simp [hl] at h
  | some v =>
      cases v <;> simp_all [hl]
      split at h <;> simp_all

theorem checkStrLen_eq_ok {m : List (Str × Value)} {key s : Str} {lo hi : Nat}
    (h : checkStrLen m key lo hi = .ok s) :
    lookupKey m key = some (.str s) ∧ lo ≤ s.length ∧ s.length ≤ hi := by
  unfold checkStrLen at h
  cases hl : lookupKey m key with
  | none => simp [hl] at h
  | some v =>
      cases v <;> simp_all [hl]
      split at h <;> simp_all
      split at h <;> simp_all

theorem checkEnumStr_eq_ok {m : List (Str × Value)} {key s : Str}
    {lits : List Str} (h : checkEnumStr m key lits = .ok s) :
    lookupKey m key = some (.str s) ∧ s ∈ lits := by
  unfold checkEnumStr at h
  cases hl : lookupKey m key with
  | none => simp [hl] at h
  | some v =>
      cases v <;> simp_all [hl]
      split at h <;> simp_all

theorem checkEnumInt_eq_ok {m : List (Str × Value)} {key : Str} {n : Int}
    {lits : List Int} (h : checkEnumInt m key lits = .ok n) :
    lookupKey m key = some (.int n) ∧ n ∈ lits := by
  unfold checkEnumInt at h
  cases hl : lookupKey m key with
  | none => simp [hl] at h
  | some v =>
      cases v <;> simp_all [hl]
      split at h <;> simp_all

theorem checkSubject_eq_ok {m : List (Str × Value)} {key s : Str}
    (h : checkSubject m key = .ok s) :
    ∃ s0, lookupKey m key = some (.str s0) ∧ pyNorm s0 ∈ VALID_SUBJECTS ∧
      s = pyNorm s0 := by
  unfold checkSubject at h
  cases hl : lookupKey m key with
  | none => simp [hl] at h
  | some v =>
      cases v <;> simp_all [hl]
      split at h <;> simp_all

theorem checkVocabList_eq_ok {m : List (Str × Value)} {key : Str}
    {vocab : List Str} {l : List Str}
    (h : checkVocabList m key vocab = .ok l) :
    ∃ xs ss, lookupKey m key = some (.list xs) ∧ 1 ≤ xs.length ∧
      asStrList xs = some ss ∧ (∀ x ∈ ss, pyNorm x ∈ vocab) ∧
      l = ss.map pyNorm := by
  unfold checkVocabList at h
  cases hl : lookupKey m key with
  | none => simp [hl] at h
  | some v =>
      cases v with
      | int n => rw [hl] at h; simp at h
      | str s => rw [hl] at h; simp at h
      | map g => rw [hl] at h; simp at h
      | list xs =>
          rw [hl] at h
          dsimp only at h
          by_cases hlen : xs.length < 1
          · rw [if_pos hlen] at h; simp at h
          · rw [if_neg hlen] at h
            cases hs : asStrList xs with
            | none => rw [hs] at h; simp at h
            | some ss =>
                rw [hs] at h
                dsimp only at h
                cases hf : (ss.map pyNorm).find? (fun x => decide (x ∉ vocab)) with
                | some bad => rw [hf] at h; simp at h
                | none =>
                    rw [hf] at h
                    simp at h
                    rw [List.find?_eq_none] at hf
                    refine ⟨xs, ss, rfl, by omega, hs, ?_, h.symm⟩
                    intro x hx
                    have hm := hf (pyNorm x) (List.mem_map_of_mem _ hx)
                    simpa using hm

/-! Lemmas about validateGroup and error aggregation. -/

theorem liftE_eq_error {α : Type} {r : Except FieldError α}
    {l : List FieldError} (h : liftE r = .error l) :
    ∃ e, r = .error e ∧ l = [e] := by
  cases r <;> simp_all [liftE]

theorem validateGroup_eq_ok {α : Type} {m : List (Str × Value)} {key : Str}
    {f : List (Str × Value) → Except (List FieldError) α} {v : α}
    (h : validateGroup m key f = .ok v) :
    ∃ g, lookupKey m key = some (.map g) ∧ f g = .ok v := by
  unfold validateGroup at h
  cases hl : lookupKey m key with
  | none => rw [hl] at h; simp at h
  | some w =>
      cases w with
      | int n => rw [hl] at h; simp at h
      | str s => rw [hl] at h; simp at h
      | list xs => rw [hl] at h; simp at h
      | map g =>
          rw [hl] at h
          dsimp only at h
          cases hg : f g with
          | ok a =>
              rw [hg] at h
              simp at h
              exact ⟨g, rfl, by rw [hg, h]⟩
          | error es => rw [hg] at h; simp at h

theorem validateGroup_ok_intro {α : Type} {m : List (Str × Value)} {key : Str}
    {f : List (Str × Value) → Except (List FieldError) α}
    {g : List (Str × Value)} {v : α} (hl : lookupKey m key = some (.map g))
    (hf : f g = .ok v) : validateGroup m key f = .ok v := by
  unfold validateGroup
  rw [hl]
  dsimp only
  rw [hf]

theorem validateGroup_none {α : Type} {m : List (Str × Value)} {key : Str}
    {f : List (Str × Value) → Except (List FieldError) α}
    (hl : lookupKey m key = none) :
    validateGroup m key f = .error [⟨[key], .missingField, []⟩] := by
  unfold validateGroup
  rw [hl]

theorem validateGroup_map_error {α : Type} {m : List (Str × Value)} {key : Str}
    {f : List (Str × Value) → Except (List FieldError) α}
    {g : List (Str × Value)} {es : List FieldError}
    (hl : lookupKey m key = some (.map g)) (hf : f g = .error es) :
    validateGroup m key f = .error (es.map (prefixPath key)) := by
  unfold validateGroup
  rw [hl]
  dsimp only
  rw [hf]

theorem mem_errsL_validateGroup {α : Type} {m : List (Str × Value)} {key : Str}
    {f : List (Str × Value) → Except (List FieldError) α} {e : FieldError}
    (h : e ∈ errsL (validateGroup m key f)) : e.path.head? = some key := by
  unfold validateGroup at h
  cases hl : lookupKey m key with
  | none => rw [hl] at h; simp_all [errsL]
  | some w =>
      cases w with
      | int n => rw [hl] at h; simp_all [errsL]
      | str s => rw [hl] at h; simp_all [errsL]
      | list xs => rw [hl] at h; simp_all [errsL]
      | map g =>
          rw [hl] at h
          dsimp only at h
          cases hg : f g with
          | ok a => rw [hg] at h; simp [errsL] at h
          | error es =>
              rw [hg] at h
              simp only [errsL_error, List.mem_map] at h
              rcases h with ⟨x, hx, he⟩
              subst he
              rfl

theorem comb2_lift_error_ne_nil {α β G : Type} {mk : α → β → G}
    {s1 : Except FieldError α} {s2 : Except FieldError β} {l : List FieldError}
    (h : comb2 mk (liftE s1) (liftE s2) = .error l) : l ≠ [] := by
  cases s1 <;> cases s2 <;> simp_all [comb2, liftE, errsL] <;>
    (subst h; simp)

theorem comb3_lift_error_ne_nil {α β γ G : Type} {mk : α → β → γ → G}
    {s1 : Except FieldError α} {s2 : Except FieldError β}
    {s3 : Except FieldError γ} {l : List FieldError}
    (h : comb3 mk (liftE s1) (liftE s2) (liftE s3) = .error l) : l ≠ [] := by
  cases s1 <;> cases s2 <;> cases s3 <;> simp_all [comb3, liftE, errsL] <;>
    (subst h; simp)

theorem comb4_lift_error_ne_nil {α β γ δ G : Type} {mk : α → β → γ → δ → G}
    {s1 : Except FieldError α} {s2 : Except FieldError β}
    {s3 : Except FieldError γ} {s4 : Except FieldError δ} {l : List FieldError}
    (h : comb4 mk (liftE s1) (liftE s2) (liftE s3) (liftE s4) = .error l) :
    l ≠ [] := by
  cases s1 <;> cases s2 <;> cases s3 <;> cases s4 <;>
    simp_all [comb4, liftE, errsL] <;> (subst h; simp)

theorem comb5_lift_error_ne_nil {α β γ δ ε G : Type}
    {mk : α → β → γ → δ → ε → G} {s1 : Except FieldError α}
    {s2 : Except FieldError β} {s3 : Except FieldError γ}
    {s4 : Except FieldError δ} {s5 : Except FieldError ε} {l : List FieldError}
    (h : comb5 mk (liftE s1) (liftE s2) (liftE s3) (liftE s4) (liftE s5) =
      .error l) : l ≠ [] := by
  cases s1 <;> cases s2 <;> cases s3 <;> cases s4 <;> cases s5 <;>
    simp_all [comb5, liftE, errsL] <;> (subst h; simp)

theorem validateDemographics_error_ne_nil {m : List (Str × Value)}
    {l : List FieldError} (h : validateDemographics m = .error l) : l ≠ [] :=
  comb5_lift_error_ne_nil h

theorem validateAcademics_error_ne_nil {m : List (Str × Value)}
    {l : List FieldError} (h : validateAcademics m = .error l) : l ≠ [] :=
  comb2_lift_error_ne_nil h

theorem validateBehavioral_error_ne_nil {m : List (Str × Value)}
    {l : List FieldError} (h : validateBehavioral m = .error l) : l ≠ [] :=
  comb4_lift_error_ne_nil h

theorem validateActivities_error_ne_nil {m : List (Str × Value)}
    {l : List FieldError} (h : validateActivities m = .error l) : l ≠ [] :=
  comb3_lift_error_ne_nil h

theorem validateDigitalMetrics_error_ne_nil {m : List (Str × Value)}
    {l : List FieldError} (h : validateDigitalMetrics m = .error l) : l ≠ [] :=
  comb2_lift_error_ne_nil h

/-! Lookup lemmas for inserted and rewritten entries. -/

theorem lookupKey_insert (m1 m2 : List (Str × Value)) (k k1 : Str) (w : Value)
    (h : k1 ≠ k) :
    lookupKey (m1 ++ (k, w) :: m2) k1 = lookupKey (m1 ++ m2) k1 := by
  induction m1 with
  | nil =>
      simp only [List.nil_append, lookupKey]
      rw [if_neg (fun e => h (e.symm))]
  | cons p rest ih =>
      cases p with
      | mk k2 v2 =>
          by_cases hk : k2 = k1
          · simp [lookupKey, hk]
          · simp [lookupKey, hk, ih]

theorem lookupKey_mapEntries (m : List (Str × Value)) (k : Str)
    (f : Str → Value → Value) :
    lookupKey (m.map (fun e => (e.1, f e.1 e.2))) k =
      (lookupKey m k).map (f k) := by
  induction m with
  | nil => simp [lookupKey]
  | cons p rest ih =>
      cases p with
      | mk k2 v2 =>
          by_cases hk : k2 = k
          · subst hk; simp [lookupKey]
          · simp [lookupKey, hk, ih]

theorem lookupKey_mapValueAt (g : List (Str × Value)) (k k1 : Str)
    (f : Value → Value) :
    lookupKey (mapValueAt g k f) k1 =
      if k1 = k then (lookupKey g k1).map f else lookupKey g k1 := by
  unfold mapValueAt
  have h := lookupKey_mapEntries g k1 (fun k2 v => if k2 = k then f v else v)
  by_cases hk : k1 = k
  · subst hk
    rw [h]
    simp
  · rw [if_neg hk]
    rw [h]
    cases lookupKey g k1 with
    | none => simp
    | some w => simp [hk]

theorem lookupKey_mapValueAt_ne (g : List (Str × Value)) {k k1 : Str}
    (f : Value → Value) (h : k1 ≠ k) :
    lookupKey (mapValueAt g k f) k1 = lookupKey g k1 := by
  rw [lookupKey_mapValueAt, if_neg h]

/-! Normalization fixed-point facts for the four vocabularies: every stored
vocabulary token is already in normalized form. -/

theorem norm_fix_sports : ∀ t ∈ VALID_SPORTS, pyNorm t = t := by decide

theorem norm_fix_genres : ∀ t ∈ VALID_MUSIC_GENRES, pyNorm t = t := by decide

theorem norm_fix_hobbies : ∀ t ∈ VALID_HOBBIES, pyNorm t = t := by decide

theorem norm_fix_subjects : ∀ t ∈ VALID_SUBJECTS, pyNorm t = t := by decide

/-! Lemmas about asStrList. -/

theorem asStrList_eq_some {xs : List Value} {ss : List Str}
    (h : asStrList xs = some ss) : xs = ss.map Value.str := by
  induction xs generalizing ss with
  | nil => simp [asStrList] at h; simp [h.symm]
  | cons x rest ih =>
      cases x with
      | str s =>
          unfold asStrList at h
          cases hr : asStrList rest with
          | none => rw [hr] at h; simp at h
          | some ss2 =>
              rw [hr] at h
              simp at h
              rw [h.symm]
              simp [ih hr]
      | int n => simp [asStrList] at h
      | list ys => simp [asStrList] at h
      | map g => simp [asStrList] at h

theorem asStrList_map_str (l : List Str) :
    asStrList (l.map Value.str) = some l := by
  induction l with
  | nil => rfl
  | cons s rest ih => simp [asStrList, ih]

/-! Congruence lemmas: every field check reads the mapping only through the
lookup of its own key. -/

theorem checkInt_congr {m m1 : List (Str × Value)} {key : Str} {lo hi : Int}
    (h : lookupKey m key = lookupKey m1 key) :
    checkInt m key lo hi = checkInt m1 key lo hi := by
  unfold checkInt; rw [h]

theorem checkStrLen_congr {m m1 : List (Str × Value)} {key : Str}
    {lo hi : Nat} (h : lookupKey m key = lookupKey m1 key) :
    checkStrLen m key lo hi = checkStrLen m1 key lo hi := by
  unfold checkStrLen; rw [h]

theorem checkEnumStr_congr {m m1 : List (Str × Value)} {key : Str}
    {lits : List Str} (h : lookupKey m key = lookupKey m1 key) :
    checkEnumStr m key lits = checkEnumStr m1 key lits := by
  unfold checkEnumStr; rw [h]

theorem checkEnumInt_congr {m m1 : List (Str × Value)} {key : Str}
    {lits : List Int} (h : lookupKey m key = lookupKey m1 key) :
    checkEnumInt m key lits = checkEnumInt m1 key lits := by
  unfold checkEnumInt; rw [h]

theorem checkSubject_congr {m m1 : List (Str × Value)} {key : Str}
    (h : lookupKey m key = lookupKey m1 key) :
    checkSubject m key = checkSubject m1 key := by
  unfold checkSubject; rw [h]

theorem checkVocabList_congr {m m1 : List (Str × Value)} {key : Str}
    {vocab : List Str} (h : lookupKey m key = lookupKey m1 key) :
    checkVocabList m key vocab = checkVocabList m1 key vocab := by
  unfold checkVocabList; rw [h]

/-! Invariance of the two normalizing checks under pre-normalization of
their own field, given that the vocabulary tokens are normalization fixed
points. -/

theorem checkSubject_normed {g g1 : List (Str × Value)} {k s : Str}
    (hok : checkSubject g k = .ok s)
    (hl : lookupKey g1 k = (lookupKey g k).map normStrOnly) :
    checkSubject g1 k = .ok s := by
  obtain ⟨s0, hs0, hmem, hval⟩ := checkSubject_eq_ok hok
  have hfix : pyNorm (pyNorm s0) = pyNorm s0 := norm_fix_subjects _ hmem
  unfold checkSubject
  rw [hl, hs0]
  simp only [Option.map_some']
  rw [show normStrOnly (Value.str s0) = Value.str (pyNorm s0) from rfl]
  dsimp only
  rw [hfix, if_pos hmem, hval]

theorem checkVocabList_normed {g g1 : List (Str × Value)} {k : Str}
    {vocab : List Str} {l : List Str}
    (hfix : ∀ t ∈ vocab, pyNorm t = t)
    (hok : checkVocabList g k vocab = .ok l)
    (hl : lookupKey g1 k = (lookupKey g k).map normListElems) :
    checkVocabList g1 k vocab = .ok l := by
  obtain ⟨xs, ss, hxs, hlen, hss, hmem, hval⟩ := checkVocabList_eq_ok hok
  have hxseq : xs = ss.map Value.str := asStrList_eq_some hss
  have hnormed : xs.map normStrOnly = (ss.map pyNorm).map Value.str := by
    rw [hxseq]
    simp [normStrOnly, Function.comp]
  have hether : (ss.map pyNorm).map pyNorm = ss.map pyNorm := by
    have := List.map_congr_left
      (l := ss.map pyNorm) (f := pyNorm) (g := id)
      (by
        intro x hx
        rcases List.mem_map.mp hx with ⟨s0, hs0, he⟩
        subst he
        exact hfix _ (hmem _ hs0))
    rw [this, List.map_id]
  have hlen2 : ¬ ((ss.map pyNorm).map Value.str).length < 1 := by
    have hxl : xs.length = ss.length := by rw [hxseq]; simp
    simp only [List.length_map]
    omega
  have hnone : (ss.map pyNorm).find? (fun x => decide (x ∉ vocab)) = none := by
    rw [List.find?_eq_none]
    intro x hx
    rcases List.mem_map.mp hx with ⟨s0, hs0, he⟩
    subst he
    simp [hmem _ hs0]
  unfold checkVocabList
  rw [hl, hxs]
  simp only [Option.map_some']
  rw [show normListElems (Value.list xs) = Value.list (xs.map normStrOnly) from
    rfl]
  dsimp only
  rw [hnormed, if_neg hlen2, asStrList_map_str]
  dsimp only
  rw [hether, hnone]
  dsimp only
  rw [hval]

/-! Computation rules for normVocabGroup at each of the five group keys. -/

theorem normVocabGroup_demo (v : Value) : normVocabGroup kDemographics v = v := by
  unfold normVocabGroup
  rw [if_neg (by decide), if_neg (by decide)]

theorem normVocabGroup_behav (v : Value) : normVocabGroup kBehavioral v = v := by
  unfold normVocabGroup
  rw [if_neg (by decide), if_neg (by decide)]

theorem normVocabGroup_digital (v : Value) :
    normVocabGroup kDigitalMetrics v = v := by
  unfold normVocabGroup
  rw [if_neg (by decide), if_neg (by decide)]

theorem normVocabGroup_acad (g : List (Str × Value)) :
    normVocabGroup kAcademics (.map g) =
      .map (mapValueAt g kFavoriteSubject normStrOnly) := by
  unfold normVocabGroup
  rw [if_pos rfl]

theorem normVocabGroup_act (g : List (Str × Value)) :
    normVocabGroup kActivities (.map g) =
      .map (mapValueAt (mapValueAt (mapValueAt g kSports normListElems)
        kMusicGenres normListElems) kHobbies normListElems) := by
  unfold normVocabGroup
  rw [if_neg (by decide), if_pos rfl]

/-! Error-list slot lemmas for the combinators. -/

theorem comb5_errsL_slot4 {α β γ δ ε G : Type} {mk : α → β → γ → δ → ε → G}
    (r1 : Except (List FieldError) α) (r2 : Except (List FieldError) β)
    (r3 : Except (List FieldError) γ) (l4 : List FieldError)
    (r5 : Except (List FieldError) ε) :
    errsL (comb5 mk r1 r2 r3 (.error l4) r5) =
      errsL r1 ++ errsL r2 ++ errsL r3 ++ l4 ++ errsL r5 := by
  cases r1 <;> cases r2 <;> cases r3 <;> cases r5 <;> simp [comb5, errsL]

theorem comb3_errsL_slot1 {α β γ G : Type} {mk : α → β → γ → G}
    (l1 : List FieldError) (r2 : Except (List FieldError) β)
    (r3 : Except (List FieldError) γ) :
    errsL (comb3 mk (.error l1 : Except (List FieldError) α) r2 r3) =
      l1 ++ errsL r2 ++ errsL r3 := by
  cases r2 <;> cases r3 <;> simp [comb3, errsL]

/-! Field-level inversions of the group validators. -/

theorem validateDemographics_eq_ok {m : List (Str × Value)} {d : Demographics}
    (h : validateDemographics m = .ok d) :
    checkStrLen m kAlias 3 30 = .ok d.alias1 ∧
    checkInt m kSiblings 0 20 = .ok d.siblings ∧
    checkInt m kCommuteTimeMin 1 180 = .ok d.commute_time_min ∧
    checkEnumStr m kClassSection CLASS_SECTIONS = .ok d.class_section ∧
    checkStrLen m kHometown 2 50 = .ok d.hometown := by
  unfold validateDemographics at h
  obtain ⟨a, b, c, d1, e, h1, h2, h3, h4, h5, hrec⟩ := comb5_eq_ok h
  subst hrec
  exact ⟨liftE_eq_ok h1, liftE_eq_ok h2, liftE_eq_ok h3, liftE_eq_ok h4,
    liftE_eq_ok h5⟩

theorem validateAcademics_eq_ok {m : List (Str × Value)} {a : Academics}
    (h : validateAcademics m = .ok a) :
    checkInt m kAcademicInterest 1 5 = .ok a.academic_interest ∧
    checkSubject m kFavoriteSubject = .ok a.favorite_subject := by
  unfold validateAcademics at h
  obtain ⟨n, s, h1, h2, hrec⟩ := comb2_eq_ok h
  subst hrec
  exact ⟨liftE_eq_ok h1, liftE_eq_ok h2⟩

theorem validateBehavioral_eq_ok {m : List (Str × Value)} {b : Behavioral}
    (h : validateBehavioral m = .ok b) :
    checkInt m kSocialStyle 1 5 = .ok b.social_style ∧
    checkEnumStr m kWeekendStyle WEEKEND_STYLES = .ok b.weekend_style ∧
    checkEnumInt m kBestWorkTime BEST_WORK_TIMES = .ok b.best_work_time ∧
    checkEnumStr m kHumorStyle HUMOR_STYLES = .ok b.humor_style := by
  unfold validateBehavioral at h
  obtain ⟨n, s, w, q, h1, h2, h3, h4, hrec⟩ := comb4_eq_ok h
  subst hrec
  exact ⟨liftE_eq_ok h1, liftE_eq_ok h2, liftE_eq_ok h3, liftE_eq_ok h4⟩

theorem validateActivities_eq_ok {m : List (Str × Value)} {act : Activities}
    (h : validateActivities m = .ok act) :
    checkVocabList m kSports VALID_SPORTS = .ok act.sports ∧
    checkVocabList m kMusicGenres VALID_MUSIC_GENRES = .ok act.music_genres ∧
    checkVocabList m kHobbies VALID_HOBBIES = .ok act.hobbies := by
  unfold validateActivities at h
  obtain ⟨l1, l2, l3, h1, h2, h3, hrec⟩ := comb3_eq_ok h
  subst hrec
  exact ⟨liftE_eq_ok h1, liftE_eq_ok h2, liftE_eq_ok h3⟩

theorem validateDigitalMetrics_eq_ok {m : List (Str × Value)}
    {dm : DigitalMetrics} (h : validateDigitalMetrics m = .ok dm) :
    checkInt m kAvgScreenTimeMin 0 1440 = .ok dm.avg_screen_time_min ∧
    checkInt m kPhonePickupsDaily 0 500 = .ok dm.phone_pickups_daily := by
  unfold validateDigitalMetrics at h
  obtain ⟨n1, n2, h1, h2, hrec⟩ := comb2_eq_ok h
  subst hrec
  exact ⟨liftE_eq_ok h1, liftE_eq_ok h2⟩

/-! Invariance of the academics and activities validators under
normalization of their vocabulary-checked fields. -/

theorem validateAcademics_norm {g : List (Str × Value)} {a : Academics}
    (h : validateAcademics g = .ok a) :
    validateAcademics (mapValueAt g kFavoriteSubject normStrOnly) = .ok a := by
  obtain ⟨h1, h2⟩ := validateAcademics_eq_ok h
  have hc1 : checkInt (mapValueAt g kFavoriteSubject normStrOnly)
      kAcademicInterest 1 5 = .ok a.academic_interest := by
    rw [checkInt_congr (lookupKey_mapValueAt_ne _ _ (by decide))]
    exact h1
  have hc2 : checkSubject (mapValueAt g kFavoriteSubject normStrOnly)
      kFavoriteSubject = .ok a.favorite_subject :=
    checkSubject_normed h2 (by rw [lookupKey_mapValueAt, if_pos rfl])
  unfold validateAcademics
  rw [hc1, hc2]
  rfl

theorem validateActivities_norm {g : List (Str × Value)} {act : Activities}
    (h : validateActivities g = .ok act) :
    validateActivities (mapValueAt (mapValueAt (mapValueAt g kSports
      normListElems) kMusicGenres normListElems) kHobbies normListElems) =
      .ok act := by
  obtain ⟨h1, h2, h3⟩ := validateActivities_eq_ok h
  have hls : lookupKey (mapValueAt (mapValueAt (mapValueAt g kSports
      normListElems) kMusicGenres normListElems) kHobbies normListElems)
      kSports = (lookupKey g kSports).map normListElems := by
    rw [lookupKey_mapValueAt_ne _ _ (by decide),
      lookupKey_mapValueAt_ne _ _ (by decide), lookupKey_mapValueAt,
      if_pos rfl]
  have hlg : lookupKey (mapValueAt (mapValueAt (mapValueAt g kSports
      normListElems) kMusicGenres normListElems) kHobbies normListElems)
      kMusicGenres = (lookupKey g kMusicGenres).map normListElems := by
    rw [lookupKey_mapValueAt_ne _ _ (by decide), lookupKey_mapValueAt,
      if_pos rfl, lookupKey_mapValueAt_ne _ _ (by decide)]
  have hlh : lookupKey (mapValueAt (mapValueAt (mapValueAt g kSports
      normListElems) kMusicGenres normListElems) kHobbies normListElems)
      kHobbies = (lookupKey g kHobbies).map normListElems := by
    rw [lookupKey_mapValueAt, if_pos rfl,
      lookupKey_mapValueAt_ne _ _ (by decide),
      lookupKey_mapValueAt_ne _ _ (by decide)]
  have hc1 := checkVocabList_normed norm_fix_sports h1 hls
  have hc2 := checkVocabList_normed norm_fix_genres h2 hlg
  have hc3 := checkVocabList_normed norm_fix_hobbies h3 hlh
  unfold validateActivities
  rw [hc1, hc2, hc3]
  rfl

theorem validateGroup_error_ne_nil {α : Type} {m : List (Str × Value)}
    {key : Str} {f : List (Str × Value) → Except (List FieldError) α}
    (hf : ∀ g l1, f g = .error l1 → l1 ≠ []) {l : List FieldError}
    (h : validateGroup m key f = .error l) : l ≠ [] := by
  unfold validateGroup at h
  cases hl : lookupKey m key with
  | none =>
      rw [hl] at h
      simp at h
      rw [← h]
      simp
  | some w =>
      cases w with
      | int n => rw [hl] at h; simp at h; rw [← h]; simp
      | str s => rw [hl] at h; simp at h; rw [← h]; simp
      | list xs => rw [hl] at h; simp at h; rw [← h]; simp
      | map g =>
          rw [hl] at h
          dsimp only at h
          cases hg : f g with
          | ok a => rw [hg] at h; simp at h
          | error es =>
              rw [hg] at h
              simp at h
              rw [← h]
              simp
              exact hf g es hg

/-- C7 (counterexample): the claim "for every valid raw record R,
validate(R) = validate(normalize(R)) where normalize trims and lowercases
EVERY string field, including alias and hometown" is false: a valid record
with the mixed-case alias Hector_A validates to a record carrying exactly
that alias, while validating its fully normalized form yields a record with
alias hector_a — two different records. -/
theorem c7_counterexample :
    validateStudent c7raw = .ok c7rec ∧
    validateStudent (specNormalize c7raw) = .ok c7recNormed ∧
    c7rec ≠ c7recNormed := by
  refine ⟨rfl, rfl, by decide⟩

/-- C7 (amended): validation is invariant under normalization of exactly
the vocabulary-checked fields (academics.favorite_subject and the three
activities lists): if a raw value validates to a record, the value with
those fields pre-normalized validates to the same record.  The claim's
stronger statement — invariance under normalizing all string fields,
including alias and hometown — is refuted by the counterexample. -/
theorem c7_theorem (v : Value) (rec : CannizzaroStudent)
    (h : validateStudent v = .ok rec) :
    validateStudent (normVocab v) = .ok rec := by
  cases v with
  | int n => simp [validateStudent] at h
  | str s => simp [validateStudent] at h
  | list xs => simp [validateStudent] at h
  | map m =>
      unfold validateStudent at h
      obtain ⟨d, a, b, act, dm, hd, ha, hb, hact, hdm, hrec⟩ := comb5_eq_ok h
      obtain ⟨gd, hgd, hvd⟩ := validateGroup_eq_ok hd
      obtain ⟨ga, hga, hva⟩ := validateGroup_eq_ok ha
      obtain ⟨gb, hgb, hvb⟩ := validateGroup_eq_ok hb
      obtain ⟨gc, hgc, hvc⟩ := validateGroup_eq_ok hact
      obtain ⟨ge, hge, hve⟩ := validateGroup_eq_ok hdm
      have hlk : ∀ key, lookupKey (m.map fun e =>
          (e.1, normVocabGroup e.1 e.2)) key =
          (lookupKey m key).map (normVocabGroup key) :=
        fun key => lookupKey_mapEntries m key normVocabGroup
      rw [show normVocab (Value.map m) =
        Value.map (m.map fun e => (e.1, normVocabGroup e.1 e.2)) from rfl]
      unfold validateStudent
      dsimp only
      have s1 : validateGroup (m.map fun e => (e.1, normVocabGroup e.1 e.2))
          kDemographics validateDemographics = .ok d :=
        validateGroup_ok_intro
          (by rw [hlk, hgd]; simp only [Option.map_some']
              rw [normVocabGroup_demo]) hvd
      have s2 : validateGroup (m.map fun e => (e.1, normVocabGroup e.1 e.2))
          kAcademics validateAcademics = .ok a :=
        validateGroup_ok_intro
          (by rw [hlk, hga]; simp only [Option.map_some']
              rw [normVocabGroup_acad])
          (validateAcademics_norm hva)
      have s3 : validateGroup (m.map fun e => (e.1, normVocabGroup e.1 e.2))
          kBehavioral validateBehavioral = .ok b :=
        validateGroup_ok_intro
          (by rw [hlk, hgb]; simp only [Option.map_some']
              rw [normVocabGroup_behav]) hvb
      have s4 : validateGroup (m.map fun e => (e.1, normVocabGroup e.1 e.2))
          kActivities validateActivities = .ok act :=
        validateGroup_ok_intro
          (by rw [hlk, hgc]; simp only [Option.map_some']
              rw [normVocabGroup_act])
          (validateActivities_norm hvc)
      have s5 : validateGroup (m.map fun e => (e.1, normVocabGroup e.1 e.2))
          kDigitalMetrics validateDigitalMetrics = .ok dm :=
        validateGroup_ok_intro
          (by rw [hlk, hge]; simp only [Option.map_some']
              rw [normVocabGroup_digital]) hve
      rw [s1, s2, s3, s4, s5, hrec]
      rfl

/-- C7 (witness): the amended theorem applied to the fully valid concrete
raw mapping. -/
theorem c7_witness : validateStudent (normVocab validRaw) = .ok recValid :=
  c7_theorem validRaw recValid rfl

theorem comb2_eq_error {α β G : Type} {mk : α → β → G}
    {r1 : Except (List FieldError) α} {r2 : Except (List FieldError) β}
    {l : List FieldError} (h : comb2 mk r1 r2 = .error l) :
    l = errsL r1 ++ errsL r2 := by
  cases r1 <;> cases r2 <;> simp_all [comb2, errsL]

theorem comb3_eq_error {α β γ G : Type} {mk : α → β → γ → G}
    {r1 : Except (List FieldError) α} {r2 : Except (List FieldError) β}
    {r3 : Except (List FieldError) γ} {l : List FieldError}
    (h : comb3 mk r1 r2 r3 = .error l) :
    l = errsL r1 ++ errsL r2 ++ errsL r3 := by
  cases r1 <;> cases r2 <;> cases r3 <;> simp_all [comb3, errsL]

theorem comb4_eq_error {α β γ δ G : Type} {mk : α → β → γ → δ → G}
    {r1 : Except (List FieldError) α} {r2 : Except (List FieldError) β}
    {r3 : Except (List FieldError) γ} {r4 : Except (List FieldError) δ}
    {l : List FieldError} (h : comb4 mk r1 r2 r3 r4 = .error l) :
    l = errsL r1 ++ errsL r2 ++ errsL r3 ++ errsL r4 := by
  cases r1 <;> cases r2 <;> cases r3 <;> cases r4 <;>
    simp_all [comb4, errsL]

theorem c2_entry (m : List (Str × Value)) :
    (∃ rec, validateStudent (.map m) = .ok rec) ∨
    (validateStudent (.map m) = .error (studentErrs m) ∧ studentErrs m ≠ []) := by
  cases h : validateStudent (Value.map m) with
  | ok rec => exact Or.inl ⟨rec, rfl⟩
  | error l =>
      right
      unfold validateStudent at h
      dsimp only at h
      obtain ⟨hl, hs⟩ := comb5_eq_error h
      subst hl
      refine ⟨rfl, ?_⟩
      unfold studentErrs
      rcases hs with ⟨e, he⟩ | ⟨e, he⟩ | ⟨e, he⟩ | ⟨e, he⟩ | ⟨e, he⟩
      · have hne : e ≠ [] := validateGroup_error_ne_nil
          (fun g l1 hh => validateDemographics_error_ne_nil hh) he
        rw [he]
        intro hnil
        simp only [errsL_error, List.append_eq_nil] at hnil
        exact hne hnil.1.1.1.1
      · have hne : e ≠ [] := validateGroup_error_ne_nil
          (fun g l1 hh => validateAcademics_error_ne_nil hh) he
        rw [he]
        intro hnil
        simp only [errsL_error, List.append_eq_nil] at hnil
        exact hne hnil.1.1.1.2
      · have hne : e ≠ [] := validateGroup_error_ne_nil
          (fun g l1 hh => validateBehavioral_error_ne_nil hh) he
        rw [he]
        intro hnil
        simp only [errsL_error, List.append_eq_nil] at hnil
        exact hne hnil.1.1.2
      · have hne : e ≠ [] := validateGroup_error_ne_nil
          (fun g l1 hh => validateActivities_error_ne_nil hh) he
        rw [he]
        intro hnil
        simp only [errsL_error, List.append_eq_nil] at hnil
        exact hne hnil.1.2
      · have hne : e ≠ [] := validateGroup_error_ne_nil
          (fun g l1 hh => validateDigitalMetrics_error_ne_nil hh) he
        rw [he]
        intro hnil
        simp only [errsL_error, List.append_eq_nil] at hnil
        exact hne hnil.2

/-- C2: for every raw input mapping, the validator entry point is a total
function returning a result value — either a fully constructed record or
the complete, non-empty list of field errors, the latter being exactly the
concatenation of the five groups' independently computed error lists; and
within every group a failure's error list is exactly the concatenation of
its per-field error lists — so no field error is swallowed and no field
error short-circuits evaluation of sibling fields or sibling groups.
Pydantic's ValidationError, which carries this aggregated list, is modelled
as the error result of the total function. -/
theorem c2_theorem :
    (∀ m, (∃ rec, validateStudent (.map m) = .ok rec) ∨
      (validateStudent (.map m) = .error (studentErrs m) ∧
        studentErrs m ≠ [])) ∧
    (∀ g l, validateDemographics g = .error l →
      l = errsL (liftE (checkStrLen g kAlias 3 30)) ++
        errsL (liftE (checkInt g kSiblings 0 20)) ++
        errsL (liftE (checkInt g kCommuteTimeMin 1 180)) ++
        errsL (liftE (checkEnumStr g kClassSection CLASS_SECTIONS)) ++
        errsL (liftE (checkStrLen g kHometown 2 50))) ∧
    (∀ g l, validateAcademics g = .error l →
      l = errsL (liftE (checkInt g kAcademicInterest 1 5)) ++
        errsL (liftE (checkSubject g kFavoriteSubject))) ∧
    (∀ g l, validateBehavioral g = .error l →
      l = errsL (liftE (checkInt g kSocialStyle 1 5)) ++
        errsL (liftE (checkEnumStr g kWeekendStyle WEEKEND_STYLES)) ++
        errsL (liftE (checkEnumInt g kBestWorkTime BEST_WORK_TIMES)) ++
        errsL (liftE (checkEnumStr g kHumorStyle HUMOR_STYLES))) ∧
    (∀ g l, validateActivities g = .error l →
      l = errsL (liftE (checkVocabList g kSports VALID_SPORTS)) ++
        errsL (liftE (checkVocabList g kMusicGenres VALID_MUSIC_GENRES)) ++
        errsL (liftE (checkVocabList g kHobbies VALID_HOBBIES))) ∧
    (∀ g l, validateDigitalMetrics g = .error l →
      l = errsL (liftE (checkInt g kAvgScreenTimeMin 0 1440)) ++
        errsL (liftE (checkInt g kPhonePickupsDaily 0 500))) := by
  refine ⟨c2_entry, ?_, ?_, ?_, ?_, ?_⟩
  · intro g l h
    unfold validateDemographics at h
    exact (comb5_eq_error h).1
  · intro g l h
    unfold validateAcademics at h
    exact comb2_eq_error h
  · intro g l h
    unfold validateBehavioral at h
    exact comb4_eq_error h
  · intro g l h
    unfold validateActivities at h
    exact comb3_eq_error h
  · intro g l h
    unfold validateDigitalMetrics at h
    exact comb2_eq_error h

/-- C2 (witness): at a concrete demographics group whose siblings value 21
violates its bound, the group's error list is exactly the concatenation of
the five per-field error lists — a single OutOfRange error at siblings,
with every sibling field still evaluated. -/
theorem c2_witness :
    validateDemographics ((kSiblings, .int 21) :: baseDemo) =
      .error [⟨[kSiblings], .outOfRange, []⟩] ∧
    [(⟨[kSiblings], .outOfRange, []⟩ : FieldError)] =
      errsL (liftE (checkStrLen ((kSiblings, .int 21) :: baseDemo)
        kAlias 3 30)) ++
      errsL (liftE (checkInt ((kSiblings, .int 21) :: baseDemo)
        kSiblings 0 20)) ++
      errsL (liftE (checkInt ((kSiblings, .int 21) :: baseDemo)
        kCommuteTimeMin 1 180)) ++
      errsL (liftE (checkEnumStr ((kSiblings, .int 21) :: baseDemo)
        kClassSection CLASS_SECTIONS)) ++
      errsL (liftE (checkStrLen ((kSiblings, .int 21) :: baseDemo)
        kHometown 2 50)) :=
  ⟨rfl, c2_theorem.2.1 ((kSiblings, .int 21) :: baseDemo)
    [⟨[kSiblings], .outOfRange, []⟩] rfl⟩

theorem checkVocabList_eq_error_path {m : List (Str × Value)} {k : Str}
    {vocab : List Str} {e : FieldError}
    (h : checkVocabList m k vocab = .error e) : e.path = [k] := by
  unfold checkVocabList at h
  cases hl : lookupKey m k with
  | none => rw [hl] at h; simp at h; rw [← h]
  | some w =>
      cases w with
      | int n => rw [hl] at h; simp at h; rw [← h]
      | str s => rw [hl] at h; simp at h; rw [← h]
      | map g => rw [hl] at h; simp at h; rw [← h]
      | list xs =>
          rw [hl] at h
          dsimp only at h
          by_cases hlen : xs.length < 1
          · rw [if_pos hlen] at h; simp at h; rw [← h]
          · rw [if_neg hlen] at h
            cases hs : asStrList xs with
            | none => rw [hs] at h; simp at h; rw [← h]
            | some ss =>
                rw [hs] at h
                dsimp only at h
                cases hf : (ss.map pyNorm).find?
                    (fun x => decide (x ∉ vocab)) with
                | some bad => rw [hf] at h; simp at h; rw [← h]
                | none => rw [hf] at h; simp at h

theorem mem_errsL_liftE_checkVocabList {m : List (Str × Value)} {k : Str}
    {vocab : List Str} {e : FieldError}
    (h : e ∈ errsL (liftE (checkVocabList m k vocab))) : e.path = [k] := by
  cases hr : checkVocabList m k vocab with
  | ok l => rw [hr] at h; simp [liftE, errsL] at h
  | error e0 =>
      rw [hr] at h
      simp [liftE, errsL] at h
      rw [h]
      exact checkVocabList_eq_error_path hr

theorem comb3_isOkE_slot1 {α β γ G : Type} {mk : α → β → γ → G}
    (l1 : List FieldError) (r2 : Except (List FieldError) β)
    (r3 : Except (List FieldError) γ) :
    isOkE (comb3 mk (.error l1 : Except (List FieldError) α) r2 r3) = false := by
  cases r2 <;> cases r3 <;> simp [comb3, isOkE]

theorem comb3_isOkE_slot2 {α β γ G : Type} {mk : α → β → γ → G}
    (r1 : Except (List FieldError) α) (l2 : List FieldError)
    (r3 : Except (List FieldError) γ) :
    isOkE (comb3 mk r1 (.error l2 : Except (List FieldError) β) r3) = false := by
  cases r1 <;> cases r3 <;> simp [comb3, isOkE]

theorem comb3_isOkE_slot3 {α β γ G : Type} {mk : α → β → γ → G}
    (r1 : Except (List FieldError) α) (r2 : Except (List FieldError) β)
    (l3 : List FieldError) :
    isOkE (comb3 mk r1 r2 (.error l3 : Except (List FieldError) γ)) = false := by
  cases r1 <;> cases r2 <;> simp [comb3, isOkE]

theorem comb3_errsL_slot2 {α β γ G : Type} {mk : α → β → γ → G}
    (r1 : Except (List FieldError) α) (l2 : List FieldError)
    (r3 : Except (List FieldError) γ) :
    errsL (comb3 mk r1 (.error l2 : Except (List FieldError) β) r3) =
      errsL r1 ++ l2 ++ errsL r3 := by
  cases r1 <;> cases r3 <;> simp [comb3, errsL]

theorem comb3_errsL_slot3 {α β γ G : Type} {mk : α → β → γ → G}
    (r1 : Except (List FieldError) α) (r2 : Except (List FieldError) β)
    (l3 : List FieldError) :
    errsL (comb3 mk r1 r2 (.error l3 : Except (List FieldError) γ)) =
      errsL r1 ++ errsL r2 ++ l3 := by
  cases r1 <;> cases r2 <;> simp [comb3, errsL]

theorem checkVocabList_first_offender {g : List (Str × Value)} {k : Str}
    {vocab : List Str} {ss : List Str} {b : Str}
    (hl : lookupKey g k = some (.list (ss.map Value.str)))
    (hfind : (ss.map pyNorm).find? (fun x => decide (x ∉ vocab)) = some b)
    (hne : ss ≠ []) :
    checkVocabList g k vocab = .error ⟨[k], .invalidVocabularyMember, [b]⟩ := by
  unfold checkVocabList
  rw [hl]
  dsimp only
  have hlen : ¬ (ss.map Value.str).length < 1 := by
    have hp : 0 < ss.length := List.length_pos.mpr hne
    simp only [List.length_map]
    omega
  rw [if_neg hlen, asStrList_map_str]
  dsimp only
  rw [hfind]

theorem filter_path_errsL_vocab_ne {m : List (Str × Value)} {k : Str}
    {vocab : List Str} {k0 : Str} (h : k ≠ k0) :
    (errsL (liftE (checkVocabList m k vocab))).filter
      (fun e => decide (e.path = [k0])) = [] := by
  rw [List.filter_eq_nil_iff]
  intro a ha
  have hp := mem_errsL_liftE_checkVocabList ha
  simp [hp]
  exact fun hk => h hk

/-- C1 (counterexample): with sports input [football, quidditch] (both
absent from the sports vocabulary, genres and hobbies valid), validation of
the activities group produces a single InvalidVocabularyMember error whose
message names only football — the first offending element — even though
quidditch is also absent, so the message does not list every absent
element. -/
theorem c1_counterexample :
    errsL (validateActivities cexActMap) =
      [⟨[kSports], .invalidVocabularyMember, ["football".toList]⟩] ∧
    pyNorm ("quidditch".toList) ∉ VALID_SPORTS ∧
    pyNorm ("quidditch".toList) ∉ ["football".toList] := by
  refine ⟨rfl, by decide, by decide⟩

/-- C1 (amended): for each of the three list-of-string fields — sports,
music_genres, hobbies — if the input is a non-empty list of strings at
least one of whose normalized elements is absent from the field's
vocabulary, validation fails for that field with a single
InvalidVocabularyMember error whose message names exactly the FIRST absent
element in input order (not every absent element). -/
theorem c1_theorem :
    (∀ g ss b, lookupKey g kSports = some (.list (ss.map Value.str)) →
      (ss.map pyNorm).find? (fun x => decide (x ∉ VALID_SPORTS)) = some b →
      ss ≠ [] →
      isOkE (validateActivities g) = false ∧
      (errsL (validateActivities g)).filter
        (fun e => decide (e.path = [kSports])) =
        [⟨[kSports], .invalidVocabularyMember, [b]⟩]) ∧
    (∀ g ss b, lookupKey g kMusicGenres = some (.list (ss.map Value.str)) →
      (ss.map pyNorm).find? (fun x => decide (x ∉ VALID_MUSIC_GENRES)) =
        some b →
      ss ≠ [] →
      isOkE (validateActivities g) = false ∧
      (errsL (validateActivities g)).filter
        (fun e => decide (e.path = [kMusicGenres])) =
        [⟨[kMusicGenres], .invalidVocabularyMember, [b]⟩]) ∧
    (∀ g ss b, lookupKey g kHobbies = some (.list (ss.map Value.str)) →
      (ss.map pyNorm).find? (fun x => decide (x ∉ VALID_HOBBIES)) = some b →
      ss ≠ [] →
      isOkE (validateActivities g) = false ∧
      (errsL (validateActivities g)).filter
        (fun e => decide (e.path = [kHobbies])) =
        [⟨[kHobbies], .invalidVocabularyMember, [b]⟩]) := by
  refine ⟨?_, ?_, ?_⟩
  · intro g ss b hl hfind hne
    have hcheck := checkVocabList_first_offender hl hfind hne
    unfold validateActivities
    rw [hcheck]
    rw [show liftE (.error ⟨[kSports], ErrKind.invalidVocabularyMember, [b]⟩ :
      Except FieldError (List Str)) =
      .error [⟨[kSports], ErrKind.invalidVocabularyMember, [b]⟩] from rfl]
    refine ⟨comb3_isOkE_slot1 _ _ _, ?_⟩
    rw [comb3_errsL_slot1]
    rw [List.filter_append, List.filter_append]
    rw [filter_path_errsL_vocab_ne (by decide),
      filter_path_errsL_vocab_ne (by decide)]
    simp
  · intro g ss b hl hfind hne
    have hcheck := checkVocabList_first_offender hl hfind hne
    unfold validateActivities
    rw [hcheck]
    rw [show liftE (.error ⟨[kMusicGenres],
      ErrKind.invalidVocabularyMember, [b]⟩ :
      Except FieldError (List Str)) =
      .error [⟨[kMusicGenres], ErrKind.invalidVocabularyMember, [b]⟩]
      from rfl]
    refine ⟨comb3_isOkE_slot2 _ _ _, ?_⟩
    rw [comb3_errsL_slot2]
    rw [List.filter_append, List.filter_append]
    rw [filter_path_errsL_vocab_ne (by decide),
      filter_path_errsL_vocab_ne (by decide)]
    simp
  · intro g ss b hl hfind hne
    have hcheck := checkVocabList_first_offender hl hfind hne
    unfold validateActivities
    rw [hcheck]
    rw [show liftE (.error ⟨[kHobbies],
      ErrKind.invalidVocabularyMember, [b]⟩ :
      Except FieldError (List Str)) =
      .error [⟨[kHobbies], ErrKind.invalidVocabularyMember, [b]⟩] from rfl]
    refine ⟨comb3_isOkE_slot3 _ _ _, ?_⟩
    rw [comb3_errsL_slot3]
    rw [List.filter_append, List.filter_append]
    rw [filter_path_errsL_vocab_ne (by decide),
      filter_path_errsL_vocab_ne (by decide)]
    simp

/-- C1 (witness): the amended theorem applied once per field: sports
[football, quidditch] names only football, the first absent element; a
music_genres list holding polka names polka; a hobbies list holding
yodeling names yodeling. -/
theorem c1_witness :
    (isOkE (validateActivities cexActMap) = false ∧
     (errsL (validateActivities cexActMap)).filter
       (fun e => decide (e.path = [kSports])) =
       [⟨[kSports], .invalidVocabularyMember, ["football".toList]⟩]) ∧
    (isOkE (validateActivities ((kMusicGenres,
        .list [.str ("polka".toList)]) :: cexActMap)) = false ∧
     (errsL (validateActivities ((kMusicGenres,
        .list [.str ("polka".toList)]) :: cexActMap))).filter
       (fun e => decide (e.path = [kMusicGenres])) =
       [⟨[kMusicGenres], .invalidVocabularyMember, ["polka".toList]⟩]) ∧
    (isOkE (validateActivities ((kHobbies,
        .list [.str ("yodeling".toList)]) :: cexActMap)) = false ∧
     (errsL (validateActivities ((kHobbies,
        .list [.str ("yodeling".toList)]) :: cexActMap))).filter
       (fun e => decide (e.path = [kHobbies])) =
       [⟨[kHobbies], .invalidVocabularyMember, ["yodeling".toList]⟩]) :=
  ⟨c1_theorem.1 cexActMap ["football".toList, "quidditch".toList]
     ("football".toList) rfl rfl (by decide),
   c1_theorem.2.1 ((kMusicGenres, .list [.str ("polka".toList)]) :: cexActMap)
     ["polka".toList] ("polka".toList) rfl rfl (by decide),
   c1_theorem.2.2 ((kHobbies, .list [.str ("yodeling".toList)]) :: cexActMap)
     ["yodeling".toList] ("yodeling".toList) rfl rfl (by decide)⟩

theorem filter_head_errsL_validateGroup_ne {α : Type} {m : List (Str × Value)}
    {k : Str} {f : List (Str × Value) → Except (List FieldError) α}
    {k0 : Str} (h : k ≠ k0) :
    (errsL (validateGroup m k f)).filter
      (fun e => decide (e.path.head? = some k0)) = [] := by
  rw [List.filter_eq_nil_iff]
  intro a ha
  have hp := mem_errsL_validateGroup ha
  simp [hp]
  exact fun hk => h hk

theorem comb5_errsL_slot1 {α β γ δ ε G : Type} {mk : α → β → γ → δ → ε → G}
    (l1 : List FieldError) (r2 : Except (List FieldError) β)
    (r3 : Except (List FieldError) γ) (r4 : Except (List FieldError) δ)
    (r5 : Except (List FieldError) ε) :
    errsL (comb5 mk (.error l1 : Except (List FieldError) α) r2 r3 r4 r5) =
      l1 ++ errsL r2 ++ errsL r3 ++ errsL r4 ++ errsL r5 := by
  cases r2 <;> cases r3 <;> cases r4 <;> cases r5 <;> simp [comb5, errsL]

theorem comb5_errsL_slot2 {α β γ δ ε G : Type} {mk : α → β → γ → δ → ε → G}
    (r1 : Except (List FieldError) α) (l2 : List FieldError)
    (r3 : Except (List FieldError) γ) (r4 : Except (List FieldError) δ)
    (r5 : Except (List FieldError) ε) :
    errsL (comb5 mk r1 (.error l2 : Except (List FieldError) β) r3 r4 r5) =
      errsL r1 ++ l2 ++ errsL r3 ++ errsL r4 ++ errsL r5 := by
  cases r1 <;> cases r3 <;> cases r4 <;> cases r5 <;> simp [comb5, errsL]

theorem comb5_errsL_slot3 {α β γ δ ε G : Type} {mk : α → β → γ → δ → ε → G}
    (r1 : Except (List FieldError) α) (r2 : Except (List FieldError) β)
    (l3 : List FieldError) (r4 : Except (List FieldError) δ)
    (r5 : Except (List FieldError) ε) :
    errsL (comb5 mk r1 r2 (.error l3 : Except (List FieldError) γ) r4 r5) =
      errsL r1 ++ errsL r2 ++ l3 ++ errsL r4 ++ errsL r5 := by
  cases r1 <;> cases r2 <;> cases r4 <;> cases r5 <;> simp [comb5, errsL]

theorem comb5_errsL_slot5 {α β γ δ ε G : Type} {mk : α → β → γ → δ → ε → G}
    (r1 : Except (List FieldError) α) (r2 : Except (List FieldError) β)
    (r3 : Except (List FieldError) γ) (r4 : Except (List FieldError) δ)
    (l5 : List FieldError) :
    errsL (comb5 mk r1 r2 r3 r4 (.error l5 : Except (List FieldError) ε)) =
      errsL r1 ++ errsL r2 ++ errsL r3 ++ errsL r4 ++ l5 := by
  cases r1 <;> cases r2 <;> cases r3 <;> cases r4 <;> simp [comb5, errsL]

/-- C3 (counterexample): a raw mapping whose activities group is entirely
absent (all other groups fully valid) yields exactly ONE MissingField error,
located at the group path activities — not three per-field missing errors
for sports, music_genres and hobbies as the claim states. -/
theorem c3_counterexample :
    errsL (validateStudent noActRaw) = [⟨[kActivities], .missingField, []⟩] ∧
    (errsL (validateStudent noActRaw)).length ≠ 3 := by
  refine ⟨rfl, by decide⟩

/-- C3 (amended): when any of the five top-level group keys is absent from
the raw mapping, that group's portion of the error list is a single
MissingField error at the group's path — not one error per required field;
per-field MissingField errors (three for activities: sports, music_genres,
hobbies) arise only when the group is present as an empty sub-mapping. -/
theorem c3_theorem :
    (∀ m, lookupKey m kDemographics = none →
      (errsL (validateStudent (.map m))).filter
        (fun e => decide (e.path.head? = some kDemographics)) =
        [⟨[kDemographics], .missingField, []⟩]) ∧
    (∀ m, lookupKey m kAcademics = none →
      (errsL (validateStudent (.map m))).filter
        (fun e => decide (e.path.head? = some kAcademics)) =
        [⟨[kAcademics], .missingField, []⟩]) ∧
    (∀ m, lookupKey m kBehavioral = none →
      (errsL (validateStudent (.map m))).filter
        (fun e => decide (e.path.head? = some kBehavioral)) =
        [⟨[kBehavioral], .missingField, []⟩]) ∧
    (∀ m, lookupKey m kActivities = none →
      (errsL (validateStudent (.map m))).filter
        (fun e => decide (e.path.head? = some kActivities)) =
        [⟨[kActivities], .missingField, []⟩]) ∧
    (∀ m, lookupKey m kDigitalMetrics = none →
      (errsL (validateStudent (.map m))).filter
        (fun e => decide (e.path.head? = some kDigitalMetrics)) =
        [⟨[kDigitalMetrics], .missingField, []⟩]) ∧
    validateActivities [] = .error
      [⟨[kSports], .missingField, []⟩, ⟨[kMusicGenres], .missingField, []⟩,
       ⟨[kHobbies], .missingField, []⟩] := by
  refine ⟨?_, ?_, ?_, ?_, ?_, rfl⟩
  · intro m hnone
    have hgrp : validateGroup m kDemographics validateDemographics =
        .error [⟨[kDemographics], .missingField, []⟩] :=
      validateGroup_none hnone
    unfold validateStudent
    dsimp only
    rw [hgrp, comb5_errsL_slot1]
    rw [List.filter_append, List.filter_append, List.filter_append,
      List.filter_append]
    rw [filter_head_errsL_validateGroup_ne (by decide),
      filter_head_errsL_validateGroup_ne (by decide),
      filter_head_errsL_validateGroup_ne (by decide),
      filter_head_errsL_validateGroup_ne (by decide)]
    simp
  · intro m hnone
    have hgrp : validateGroup m kAcademics validateAcademics =
        .error [⟨[kAcademics], .missingField, []⟩] :=
      validateGroup_none hnone
    unfold validateStudent
    dsimp only
    rw [hgrp, comb5_errsL_slot2]
    rw [List.filter_append, List.filter_append, List.filter_append,
      List.filter_append]
    rw [filter_head_errsL_validateGroup_ne (by decide),
      filter_head_errsL_validateGroup_ne (by decide),
      filter_head_errsL_validateGroup_ne (by decide),
      filter_head_errsL_validateGroup_ne (by decide)]
    simp
  · intro m hnone
    have hgrp : validateGroup m kBehavioral validateBehavioral =
        .error [⟨[kBehavioral], .missingField, []⟩] :=
      validateGroup_none hnone
    unfold validateStudent
    dsimp only
    rw [hgrp, comb5_errsL_slot3]
    rw [List.filter_append, List.filter_append, List.filter_append,
      List.filter_append]
    rw [filter_head_errsL_validateGroup_ne (by decide),
      filter_head_errsL_validateGroup_ne (by decide),
      filter_head_errsL_validateGroup_ne (by decide),
      filter_head_errsL_validateGroup_ne (by decide)]
    simp
  · intro m hnone
    have hgrp : validateGroup m kActivities validateActivities =
        .error [⟨[kActivities], .missingField, []⟩] := validateGroup_none hnone
    unfold validateStudent
    dsimp only
    rw [hgrp, comb5_errsL_slot4]
    rw [List.filter_append, List.filter_append, List.filter_append,
      List.filter_append]
    rw [filter_head_errsL_validateGroup_ne (by decide),
      filter_head_errsL_validateGroup_ne (by decide),
      filter_head_errsL_validateGroup_ne (by decide),
      filter_head_errsL_validateGroup_ne (by decide)]
    simp
  · intro m hnone
    have hgrp : validateGroup m kDigitalMetrics validateDigitalMetrics =
        .error [⟨[kDigitalMetrics], .missingField, []⟩] :=
      validateGroup_none hnone
    unfold validateStudent
    dsimp only
    rw [hgrp, comb5_errsL_slot5]
    rw [List.filter_append, List.filter_append, List.filter_append,
      List.filter_append]
    rw [filter_head_errsL_validateGroup_ne (by decide),
      filter_head_errsL_validateGroup_ne (by decide),
      filter_head_errsL_validateGroup_ne (by decide),
      filter_head_errsL_validateGroup_ne (by decide)]
    simp

/-- C3 (witness): the amended theorem applied to the empty raw mapping,
from which all five group keys are absent: each group contributes exactly
one MissingField error at its own path. -/
theorem c3_witness :
    ((errsL (validateStudent (.map []))).filter
      (fun e => decide (e.path.head? = some kDemographics)) =
      [⟨[kDemographics], .missingField, []⟩]) ∧
    ((errsL (validateStudent (.map []))).filter
      (fun e => decide (e.path.head? = some kAcademics)) =
      [⟨[kAcademics], .missingField, []⟩]) ∧
    ((errsL (validateStudent (.map []))).filter
      (fun e => decide (e.path.head? = some kBehavioral)) =
      [⟨[kBehavioral], .missingField, []⟩]) ∧
    ((errsL (validateStudent (.map []))).filter
      (fun e => decide (e.path.head? = some kActivities)) =
      [⟨[kActivities], .missingField, []⟩]) ∧
    ((errsL (validateStudent (.map []))).filter
      (fun e => decide (e.path.head? = some kDigitalMetrics)) =
      [⟨[kDigitalMetrics], .missingField, []⟩]) :=
  ⟨c3_theorem.1 [] rfl, c3_theorem.2.1 [] rfl, c3_theorem.2.2.1 [] rfl,
   c3_theorem.2.2.2.1 [] rfl, c3_theorem.2.2.2.2.1 [] rfl⟩

theorem validateGroup_congr {α : Type} {m m1 : List (Str × Value)} {key : Str}
    {f : List (Str × Value) → Except (List FieldError) α}
    (h : lookupKey m key = lookupKey m1 key) :
    validateGroup m key f = validateGroup m1 key f := by
  unfold validateGroup
  rw [h]

/-- C4: inserting an entry with any unknown top-level key anywhere into a
raw student mapping never changes the validation outcome — the extra key is
consulted by nothing (Config.extra = "ignore"), so the result, record or
error list, is identical to that of the mapping without the entry, and in
particular a successful record carries no trace of the extra key. -/
theorem c4_theorem (m1 m2 : List (Str × Value)) (k : Str) (w : Value)
    (h : k ∉ KNOWN_KEYS) :
    validateStudent (.map (m1 ++ (k, w) :: m2)) =
      validateStudent (.map (m1 ++ m2)) := by
  have h1 : kDemographics ≠ k := by
    intro e; rw [← e] at h; exact h (by decide)
  have h2 : kAcademics ≠ k := by
    intro e; rw [← e] at h; exact h (by decide)
  have h3 : kBehavioral ≠ k := by
    intro e; rw [← e] at h; exact h (by decide)
  have h4 : kActivities ≠ k := by
    intro e; rw [← e] at h; exact h (by decide)
  have h5 : kDigitalMetrics ≠ k := by
    intro e; rw [← e] at h; exact h (by decide)
  unfold validateStudent
  dsimp only
  rw [validateGroup_congr (lookupKey_insert m1 m2 k kDemographics w h1),
    validateGroup_congr (lookupKey_insert m1 m2 k kAcademics w h2),
    validateGroup_congr (lookupKey_insert m1 m2 k kBehavioral w h3),
    validateGroup_congr (lookupKey_insert m1 m2 k kActivities w h4),
    validateGroup_congr (lookupKey_insert m1 m2 k kDigitalMetrics w h5)]

/-- C4 (witness): prepending the unknown key _id with value abc123 to the
fully valid raw mapping leaves the outcome unchanged, and that outcome is
the successfully constructed record. -/
theorem c4_witness :
    ("_id".toList ∉ KNOWN_KEYS) ∧
    validateStudent (.map ([] ++ ("_id".toList, .str ("abc123".toList)) ::
      [(kDemographics, .map baseDemo), (kAcademics, .map baseAcad),
       (kBehavioral, .map baseBehav), (kActivities, .map baseAct),
       (kDigitalMetrics, .map baseDigital)])) =
      validateStudent (.map ([] ++
        [(kDemographics, .map baseDemo), (kAcademics, .map baseAcad),
         (kBehavioral, .map baseBehav), (kActivities, .map baseAct),
         (kDigitalMetrics, .map baseDigital)])) ∧
    validateStudent (.map ([] ++
      [(kDemographics, .map baseDemo), (kAcademics, .map baseAcad),
       (kBehavioral, .map baseBehav), (kActivities, .map baseAct),
       (kDigitalMetrics, .map baseDigital)])) = .ok recValid :=
  ⟨by decide,
   c4_theorem []
     [(kDemographics, .map baseDemo), (kAcademics, .map baseAcad),
      (kBehavioral, .map baseBehav), (kActivities, .map baseAct),
      (kDigitalMetrics, .map baseDigital)]
     ("_id".toList) (.str ("abc123".toList)) (by decide),
   rfl⟩

/-- C5: boundary behavior of every bounded integer field, each tested in an
otherwise fully valid record: the declared low and high bounds pass, and
one below or one above fails with a single OutOfRange error at that field's
path (siblings 0 to 20, commute_time_min 1 to 180, academic_interest 1 to
5, social_style 1 to 5, avg_screen_time_min 0 to 1440, phone_pickups_daily
0 to 500). -/
theorem c5_theorem :
    isOkE (validateStudent (withDemo (kSiblings, .int 0))) = true ∧
    isOkE (validateStudent (withDemo (kSiblings, .int 20))) = true ∧
    errsL (validateStudent (withDemo (kSiblings, .int (-1)))) =
      [⟨[kDemographics, kSiblings], .outOfRange, []⟩] ∧
    errsL (validateStudent (withDemo (kSiblings, .int 21))) =
      [⟨[kDemographics, kSiblings], .outOfRange, []⟩] ∧
    isOkE (validateStudent (withDemo (kCommuteTimeMin, .int 1))) = true ∧
    isOkE (validateStudent (withDemo (kCommuteTimeMin, .int 180))) = true ∧
    errsL (validateStudent (withDemo (kCommuteTimeMin, .int 0))) =
      [⟨[kDemographics, kCommuteTimeMin], .outOfRange, []⟩] ∧
    errsL (validateStudent (withDemo (kCommuteTimeMin, .int 181))) =
      [⟨[kDemographics, kCommuteTimeMin], .outOfRange, []⟩] ∧
    isOkE (validateStudent (withAcad (kAcademicInterest, .int 1))) = true ∧
    isOkE (validateStudent (withAcad (kAcademicInterest, .int 5))) = true ∧
    errsL (validateStudent (withAcad (kAcademicInterest, .int 0))) =
      [⟨[kAcademics, kAcademicInterest], .outOfRange, []⟩] ∧
    errsL (validateStudent (withAcad (kAcademicInterest, .int 6))) =
      [⟨[kAcademics, kAcademicInterest], .outOfRange, []⟩] ∧
    isOkE (validateStudent (withBehav (kSocialStyle, .int 1))) = true ∧
    isOkE (validateStudent (withBehav (kSocialStyle, .int 5))) = true ∧
    errsL (validateStudent (withBehav (kSocialStyle, .int 0))) =
      [⟨[kBehavioral, kSocialStyle], .outOfRange, []⟩] ∧
    errsL (validateStudent (withBehav (kSocialStyle, .int 6))) =
      [⟨[kBehavioral, kSocialStyle], .outOfRange, []⟩] ∧
    isOkE (validateStudent (withDigital (kAvgScreenTimeMin, .int 0))) = true ∧
    isOkE (validateStudent (withDigital (kAvgScreenTimeMin, .int 1440))) =
      true ∧
    errsL (validateStudent (withDigital (kAvgScreenTimeMin, .int (-1)))) =
      [⟨[kDigitalMetrics, kAvgScreenTimeMin], .outOfRange, []⟩] ∧
    errsL (validateStudent (withDigital (kAvgScreenTimeMin, .int 1441))) =
      [⟨[kDigitalMetrics, kAvgScreenTimeMin], .outOfRange, []⟩] ∧
    isOkE (validateStudent (withDigital (kPhonePickupsDaily, .int 0))) =
      true ∧
    isOkE (validateStudent (withDigital (kPhonePickupsDaily, .int 500))) =
      true ∧
    errsL (validateStudent (withDigital (kPhonePickupsDaily, .int (-1)))) =
      [⟨[kDigitalMetrics, kPhonePickupsDaily], .outOfRange, []⟩] ∧
    errsL (validateStudent (withDigital (kPhonePickupsDaily, .int 501))) =
      [⟨[kDigitalMetrics, kPhonePickupsDaily], .outOfRange, []⟩] := by
  refine ⟨rfl, rfl, rfl, rfl, rfl, rfl, rfl, rfl, rfl, rfl, rfl, rfl, rfl,
    rfl, rfl, rfl, rfl, rfl, rfl, rfl, rfl, rfl, rfl, rfl⟩

theorem checkEnumStr_ok_iff {g : List (Str × Value)} {k s : Str}
    {lits : List Str} (hl : lookupKey g k = some (.str s)) :
    checkEnumStr g k lits = .ok s ↔ s ∈ lits := by
  unfold checkEnumStr
  rw [hl]
  dsimp only
  by_cases hm : s ∈ lits
  · rw [if_pos hm]; simp [hm]
  · rw [if_neg hm]; simp [hm]

theorem checkEnumInt_ok_iff {g : List (Str × Value)} {k : Str} {n : Int}
    {lits : List Int} (hl : lookupKey g k = some (.int n)) :
    checkEnumInt g k lits = .ok n ↔ n ∈ lits := by
  unfold checkEnumInt
  rw [hl]
  dsimp only
  by_cases hm : n ∈ lits
  · rw [if_pos hm]; simp [hm]
  · rw [if_neg hm]; simp [hm]

/-- C6 (counterexample): the claim that string enum inputs are normalized
before the membership check — so that A (for class_section) or a padded
chill (for weekend_style) would be accepted — is false: both inputs are
rejected with an InvalidEnum error in an otherwise valid group. -/
theorem c6_counterexample :
    errsL (validateDemographics ((kClassSection, .str ("A".toList)) ::
      baseDemo)) = [⟨[kClassSection], .invalidEnum, []⟩] ∧
    errsL (validateBehavioral ((kWeekendStyle, .str (" chill ".toList)) ::
      baseBehav)) = [⟨[kWeekendStyle], .invalidEnum, []⟩] :=
  ⟨rfl, rfl⟩

/-- C6 (amended): every scalar enumeration field — string-valued
(class_section, weekend_style, humor_style) just like integer-valued
(best_work_time) — is matched EXACTLY against its literal set, with no
trimming or lowercasing: the raw value is accepted, and stored unchanged,
precisely when it is literally a member of the set. -/
theorem c6_theorem :
    (∀ g s, lookupKey g kClassSection = some (.str s) →
      (checkEnumStr g kClassSection CLASS_SECTIONS = .ok s ↔
        s ∈ CLASS_SECTIONS)) ∧
    (∀ g s, lookupKey g kWeekendStyle = some (.str s) →
      (checkEnumStr g kWeekendStyle WEEKEND_STYLES = .ok s ↔
        s ∈ WEEKEND_STYLES)) ∧
    (∀ g s, lookupKey g kHumorStyle = some (.str s) →
      (checkEnumStr g kHumorStyle HUMOR_STYLES = .ok s ↔
        s ∈ HUMOR_STYLES)) ∧
    (∀ g n, lookupKey g kBestWorkTime = some (.int n) →
      (checkEnumInt g kBestWorkTime BEST_WORK_TIMES = .ok n ↔
        n ∈ BEST_WORK_TIMES)) :=
  ⟨fun _ _ hl => checkEnumStr_ok_iff hl, fun _ _ hl => checkEnumStr_ok_iff hl,
   fun _ _ hl => checkEnumStr_ok_iff hl, fun _ _ hl => checkEnumInt_ok_iff hl⟩

/-- C6 (witness): the amended theorem applied to the valid base groups: the
exact lowercase literal a is accepted for class_section, and since A is not
literally in the set, the same equivalence shows its rejection. -/
theorem c6_witness :
    (checkEnumStr baseDemo kClassSection CLASS_SECTIONS = .ok ("a".toList) ↔
      ("a".toList ∈ CLASS_SECTIONS)) ∧
    (checkEnumStr ((kClassSection, .str ("A".toList)) :: baseDemo)
      kClassSection CLASS_SECTIONS = .ok ("A".toList) ↔
      ("A".toList ∈ CLASS_SECTIONS)) :=
  ⟨c6_theorem.1 baseDemo ("a".toList) rfl,
   c6_theorem.1 ((kClassSection, .str ("A".toList)) :: baseDemo)
     ("A".toList) rfl⟩

/-- C8 (counterexample): the Subjects vocabulary does not have 14 entries —
it has 15 (math, physics, chemistry, biology, computer_science, literature,
history, art, music, economics, philosophy, physical_education,
foreign_languages, engineering, other). -/
theorem c8_counterexample : ¬ (VALID_SUBJECTS.length = 14) := by decide

/-- C8 (amended): the four vocabularies are fixed constants with Sports 11
entries including none, MusicGenres 14 entries, Hobbies 21 entries
including none, and Subjects 15 (not 14) entries including other; in every
vocabulary the tokens are pairwise distinct, all lowercase, and free of
leading and trailing whitespace. -/
theorem c8_theorem :
    VALID_SPORTS.length = 11 ∧ VALID_MUSIC_GENRES.length = 14 ∧
    VALID_HOBBIES.length = 21 ∧ VALID_SUBJECTS.length = 15 ∧
    "none".toList ∈ VALID_SPORTS ∧ "none".toList ∈ VALID_HOBBIES ∧
    "other".toList ∈ VALID_SUBJECTS ∧
    VALID_SPORTS.Nodup ∧ VALID_MUSIC_GENRES.Nodup ∧ VALID_HOBBIES.Nodup ∧
    VALID_SUBJECTS.Nodup ∧
    (VALID_SPORTS.all fun t => decide (pyLower t = t ∧ pyStrip t = t)) =
      true ∧
    (VALID_MUSIC_GENRES.all fun t =>
      decide (pyLower t = t ∧ pyStrip t = t)) = true ∧
    (VALID_HOBBIES.all fun t => decide (pyLower t = t ∧ pyStrip t = t)) =
      true ∧
    (VALID_SUBJECTS.all fun t => decide (pyLower t = t ∧ pyStrip t = t)) =
      true := by
  decide

theorem vocabList_ok_props {m : List (Str × Value)} {k : Str}
    {vocab : List Str} {l : List Str} (hfix : ∀ t ∈ vocab, pyNorm t = t)
    (h : checkVocabList m k vocab = .ok l) :
    l ≠ [] ∧ (l.all fun s => decide (s ∈ vocab ∧ pyNorm s = s)) = true := by
  obtain ⟨xs, ss, hxs, hlen, hss, hmem, hval⟩ := checkVocabList_eq_ok h
  have hxseq := asStrList_eq_some hss
  subst hval
  constructor
  · intro hnil
    rw [List.map_eq_nil_iff] at hnil
    subst hnil
    rw [hxseq] at hlen
    simp at hlen
  · rw [List.all_eq_true]
    intro x hx
    rcases List.mem_map.mp hx with ⟨s0, hs0, he⟩
    subst he
    have hv := hmem _ hs0
    simp [hv, hfix _ hv]

/-- C9: every successfully constructed student record satisfies all the
declared field constraints: the three activity lists are non-empty, with
every element a normalized member of its vocabulary; favorite_subject is a
normalized member of the Subjects vocabulary; every numeric field lies in
its declared bounds; every enum field holds one of its literals; and the
alias and hometown lengths are within bounds.  (The embedding's record is
an immutable value, as the source exposes no mutation API, so these facts
hold at all times after construction.) -/
theorem c9_theorem (v : Value) (rec : CannizzaroStudent)
    (h : validateStudent v = .ok rec) :
    rec.activities.sports ≠ [] ∧
    (rec.activities.sports.all fun s =>
      decide (s ∈ VALID_SPORTS ∧ pyNorm s = s)) = true ∧
    rec.activities.music_genres ≠ [] ∧
    (rec.activities.music_genres.all fun s =>
      decide (s ∈ VALID_MUSIC_GENRES ∧ pyNorm s = s)) = true ∧
    rec.activities.hobbies ≠ [] ∧
    (rec.activities.hobbies.all fun s =>
      decide (s ∈ VALID_HOBBIES ∧ pyNorm s = s)) = true ∧
    rec.academics.favorite_subject ∈ VALID_SUBJECTS ∧
    pyNorm rec.academics.favorite_subject = rec.academics.favorite_subject ∧
    3 ≤ rec.demographics.alias1.length ∧
    rec.demographics.alias1.length ≤ 30 ∧
    0 ≤ rec.demographics.siblings ∧ rec.demographics.siblings ≤ 20 ∧
    1 ≤ rec.demographics.commute_time_min ∧
    rec.demographics.commute_time_min ≤ 180 ∧
    rec.demographics.class_section ∈ CLASS_SECTIONS ∧
    2 ≤ rec.demographics.hometown.length ∧
    rec.demographics.hometown.length ≤ 50 ∧
    1 ≤ rec.academics.academic_interest ∧
    rec.academics.academic_interest ≤ 5 ∧
    1 ≤ rec.behavioral.social_style ∧ rec.behavioral.social_style ≤ 5 ∧
    rec.behavioral.weekend_style ∈ WEEKEND_STYLES ∧
    rec.behavioral.best_work_time ∈ BEST_WORK_TIMES ∧
    rec.behavioral.humor_style ∈ HUMOR_STYLES ∧
    0 ≤ rec.digital_metrics.avg_screen_time_min ∧
    rec.digital_metrics.avg_screen_time_min ≤ 1440 ∧
    0 ≤ rec.digital_metrics.phone_pickups_daily ∧
    rec.digital_metrics.phone_pickups_daily ≤ 500 := by
  cases v with
  | int n => simp [validateStudent] at h
  | str s => simp [validateStudent] at h
  | list xs => simp [validateStudent] at h
  | map m =>
      unfold validateStudent at h
      dsimp only at h
      obtain ⟨d, a, b, act, dm, hd, ha, hb, hact, hdm, hrec⟩ := comb5_eq_ok h
      subst hrec
      obtain ⟨gd, hgd, hvd⟩ := validateGroup_eq_ok hd
      obtain ⟨ga, hga, hva⟩ := validateGroup_eq_ok ha
      obtain ⟨gb, hgb, hvb⟩ := validateGroup_eq_ok hb
      obtain ⟨gc, hgc, hvc⟩ := validateGroup_eq_ok hact
      obtain ⟨ge, hge, hve⟩ := validateGroup_eq_ok hdm
      obtain ⟨hd1, hd2, hd3, hd4, hd5⟩ := validateDemographics_eq_ok hvd
      obtain ⟨ha1, ha2⟩ := validateAcademics_eq_ok hva
      obtain ⟨hb1, hb2, hb3, hb4⟩ := validateBehavioral_eq_ok hvb
      obtain ⟨hc1, hc2, hc3⟩ := validateActivities_eq_ok hvc
      obtain ⟨he1, he2⟩ := validateDigitalMetrics_eq_ok hve
      obtain ⟨hsne, hsall⟩ := vocabList_ok_props norm_fix_sports hc1
      obtain ⟨hgne, hgall⟩ := vocabList_ok_props norm_fix_genres hc2
      obtain ⟨hhne, hhall⟩ := vocabList_ok_props norm_fix_hobbies hc3
      obtain ⟨s0, hs0l, hs0m, hs0v⟩ := checkSubject_eq_ok ha2
      have hsubfix : pyNorm a.favorite_subject = a.favorite_subject := by
        rw [hs0v]
        exact norm_fix_subjects _ hs0m
      refine ⟨hsne, hsall, hgne, hgall, hhne, hhall, ?_, hsubfix,
        (checkStrLen_eq_ok hd1).2.1, (checkStrLen_eq_ok hd1).2.2,
        (checkInt_eq_ok hd2).2.1, (checkInt_eq_ok hd2).2.2,
        (checkInt_eq_ok hd3).2.1, (checkInt_eq_ok hd3).2.2,
        (checkEnumStr_eq_ok hd4).2,
        (checkStrLen_eq_ok hd5).2.1, (checkStrLen_eq_ok hd5).2.2,
        (checkInt_eq_ok ha1).2.1, (checkInt_eq_ok ha1).2.2,
        (checkInt_eq_ok hb1).2.1, (checkInt_eq_ok hb1).2.2,
        (checkEnumStr_eq_ok hb2).2, (checkEnumInt_eq_ok hb3).2,
        (checkEnumStr_eq_ok hb4).2,
        (checkInt_eq_ok he1).2.1, (checkInt_eq_ok he1).2.2,
        (checkInt_eq_ok he2).2.1, (checkInt_eq_ok he2).2.2⟩
      rw [hs0v]
      exact hs0m

/-- C9 (witness): the invariants instantiated at the fully valid concrete
raw mapping and the record it constructs. -/
theorem c9_witness :
    recValid.activities.sports ≠ [] ∧
    (recValid.activities.sports.all fun s =>
      decide (s ∈ VALID_SPORTS ∧ pyNorm s = s)) = true ∧
    recValid.activities.music_genres ≠ [] ∧
    (recValid.activities.music_genres.all fun s =>
      decide (s ∈ VALID_MUSIC_GENRES ∧ pyNorm s = s)) = true ∧
    recValid.activities.hobbies ≠ [] ∧
    (recValid.activities.hobbies.all fun s =>
      decide (s ∈ VALID_HOBBIES ∧ pyNorm s = s)) = true ∧
    recValid.academics.favorite_subject ∈ VALID_SUBJECTS ∧
    pyNorm recValid.academics.favorite_subject =
      recValid.academics.favorite_subject ∧
    3 ≤ recValid.demographics.alias1.length ∧
    recValid.demographics.alias1.length ≤ 30 ∧
    0 ≤ recValid.demographics.siblings ∧ recValid.demographics.siblings ≤ 20 ∧
    1 ≤ recValid.demographics.commute_time_min ∧
    recValid.demographics.commute_time_min ≤ 180 ∧
    recValid.demographics.class_section ∈ CLASS_SECTIONS ∧
    2 ≤ recValid.demographics.hometown.length ∧
    recValid.demographics.hometown.length ≤ 50 ∧
    1 ≤ recValid.academics.academic_interest ∧
    recValid.academics.academic_interest ≤ 5 ∧
    1 ≤ recValid.behavioral.social_style ∧
    recValid.behavioral.social_style ≤ 5 ∧
    recValid.behavioral.weekend_style ∈ WEEKEND_STYLES ∧
    recValid.behavioral.best_work_time ∈ BEST_WORK_TIMES ∧
    recValid.behavioral.humor_style ∈ HUMOR_STYLES ∧
    0 ≤ recValid.digital_metrics.avg_screen_time_min ∧
    recValid.digital_metrics.avg_screen_time_min ≤ 1440 ∧
    0 ≤ recValid.digital_metrics.phone_pickups_daily ∧
    recValid.digital_metrics.phone_pickups_daily ≤ 500 :=
  c9_theorem validRaw recValid rfl

/-- C10: the length bounds on alias (3 to 30) and hometown (2 to 50) are
measured on the raw submitted string — no trimming or lowercasing — and the
constructed record stores both strings exactly as submitted; in particular
the alias consisting of a letter padded by two spaces has raw length 3 and
passes, stored verbatim. -/
theorem c10_theorem :
    (∀ g rec s, validateDemographics g = .ok rec →
      lookupKey g kAlias = some (.str s) →
      rec.alias1 = s ∧ 3 ≤ s.length ∧ s.length ≤ 30) ∧
    (∀ g rec s, validateDemographics g = .ok rec →
      lookupKey g kHometown = some (.str s) →
      rec.hometown = s ∧ 2 ≤ s.length ∧ s.length ≤ 50) ∧
    validateDemographics ((kAlias, .str (" a ".toList)) :: baseDemo) =
      .ok ⟨" a ".toList, 1, 30, "a".toList, "rome".toList⟩ := by
  refine ⟨?_, ?_, rfl⟩
  · intro g rec s h hl
    obtain ⟨h1, _, _, _, _⟩ := validateDemographics_eq_ok h
    obtain ⟨hl2, hlo, hhi⟩ := checkStrLen_eq_ok h1
    rw [hl] at hl2
    simp at hl2
    rw [← hl2] at hlo hhi
    exact ⟨hl2.symm ▸ rfl, hlo, hhi⟩
  · intro g rec s h hl
    obtain ⟨_, _, _, _, h5⟩ := validateDemographics_eq_ok h
    obtain ⟨hl2, hlo, hhi⟩ := checkStrLen_eq_ok h5
    rw [hl] at hl2
    simp at hl2
    rw [← hl2] at hlo hhi
    exact ⟨hl2.symm ▸ rfl, hlo, hhi⟩

/-- C10 (witness): the preservation and raw-length facts instantiated at
the valid base demographics group and its record. -/
theorem c10_witness :
    (Demographics.mk ("hector_a".toList) 1 30 ("a".toList)
      ("rome".toList)).alias1 = "hector_a".toList ∧
    3 ≤ ("hector_a".toList : Str).length ∧
    ("hector_a".toList : Str).length ≤ 30 :=
  c10_theorem.1 baseDemo
    (Demographics.mk ("hector_a".toList) 1 30 ("a".toList) ("rome".toList))
    ("hector_a".toList) rfl rfl

end Day4
